import Mathlib

/-!
Verification of the uSIP SIP-client core against its design specification.

The Python sources are shallowly embedded: strings become `List Char`,
Python byte strings become `List Nat` (each entry a byte), the UDP socket
becomes an explicit oracle of incoming datagrams, and every function of
`simple_sip_client.py` / `src/sip_client/sip/messages.py` that the claims
mention is translated into a total executable Lean definition.
-/

namespace USIP

/-- Shorthand for the character list underlying a string literal. -/
def chars (s : String) : List Char := s.data

/-! ## UTF-8 encoding (Python `str.encode()`)

Python `str.encode()` produces the UTF-8 bytes of the string; `len(s)`
on the `str` itself counts characters.  The distinction matters for the
Content-Length claims. -/

/-- UTF-8 bytes of a single character, standard 1-4 byte encoding. -/
def utf8Bytes (c : Char) : List Nat :=
  let n := c.toNat
  if n < 128 then [n]
  else if n < 2048 then [192 ||| (n >>> 6), 128 ||| (n &&& 63)]
  else if n < 65536 then
    [224 ||| (n >>> 12), 128 ||| ((n >>> 6) &&& 63), 128 ||| (n &&& 63)]
  else
    [240 ||| (n >>> 18), 128 ||| ((n >>> 12) &&& 63),
     128 ||| ((n >>> 6) &&& 63), 128 ||| (n &&& 63)]

/-- Python `s.encode()`: UTF-8 bytes of a string. -/
def encodeUtf8 (s : List Char) : List Nat := (s.map utf8Bytes).flatten

/-- Byte length of the UTF-8 encoding of a string. -/
def utf8Len (s : List Char) : Nat := (encodeUtf8 s).length

/-! ## MD5 (Python `hashlib.md5`)

A byte-level implementation of RFC 1321 MD5, used by
`SimpleSIPClient.handle_authentication` for digest authentication.
All arithmetic is `Nat` reduced mod 2^32; recursion is structural
(fuel-based) so the kernel can evaluate digests. -/

namespace MD5

def mask32 : Nat := 4294967295

/-- 32-bit left rotation. -/
def rotl (x s : Nat) : Nat := ((x <<< s) ||| (x >>> (32 - s))) &&& mask32

/-- 32-bit complement. -/
def compl32 (x : Nat) : Nat := x ^^^ mask32

/-- The sine-derived round constants of RFC 1321. -/
def K : List Nat :=
  [3614090360, 3905402710, 606105819, 3250441966, 4118548399, 1200080426,
   2821735955, 4249261313, 1770035416, 2336552879, 4294925233, 2304563134,
   1804603682, 4254626195, 2792965006, 1236535329, 4129170786, 3225465664,
   643717713, 3921069994, 3593408605, 38016083, 3634488961, 3889429448,
   568446438, 3275163606, 4107603335, 1163531501, 2850285829, 4243563512,
   1735328473, 2368359562, 4294588738, 2272392833, 1839030562, 4259657740,
   2763975236, 1272893353, 4139469664, 3200236656, 681279174, 3936430074,
   3572445317, 76029189, 3654602809, 3873151461, 530742520, 3299628645,
   4096336452, 1126891415, 2878612391, 4237533241, 1700485571, 2399980690,
   4293915773, 2240044497, 1873313359, 4264355552, 2734768916, 1309151649,
   4149444226, 3174756917, 718787259, 3951481745]

/-- The per-round shift amounts of RFC 1321. -/
def S : List Nat :=
  [7, 12, 17, 22, 7, 12, 17, 22, 7, 12, 17, 22, 7, 12, 17, 22,
   5, 9, 14, 20, 5, 9, 14, 20, 5, 9, 14, 20, 5, 9, 14, 20,
   4, 11, 16, 23, 4, 11, 16, 23, 4, 11, 16, 23, 4, 11, 16, 23,
   6, 10, 15, 21, 6, 10, 15, 21, 6, 10, 15, 21, 6, 10, 15, 21]

/-- Little-endian 32-bit word `g` of a 64-byte block. -/
def word (block : List Nat) (g : Nat) : Nat :=
  block.getD (4 * g) 0 + block.getD (4 * g + 1) 0 * 256 +
    block.getD (4 * g + 2) 0 * 65536 + block.getD (4 * g + 3) 0 * 16777216

/-- One of the 64 MD5 rounds. -/
def step (block : List Nat) (st : Nat × Nat × Nat × Nat) (i : Nat) :
    Nat × Nat × Nat × Nat :=
  let a := st.1
  let b := st.2.1
  let c := st.2.2.1
  let d := st.2.2.2
  let fg : Nat × Nat :=
    if i < 16 then ((b &&& c) ||| (compl32 b &&& d), i)
    else if i < 32 then ((d &&& b) ||| (compl32 d &&& c), (5 * i + 1) % 16)
    else if i < 48 then (b ^^^ c ^^^ d, (3 * i + 5) % 16)
    else (c ^^^ (b ||| compl32 d), (7 * i) % 16)
  let f := (fg.1 + a + K.getD i 0 + word block fg.2) &&& mask32
  (d, (b + rotl f (S.getD i 0)) &&& mask32, b, c)

/-- Process one 64-byte block, updating the running state. -/
def processBlock (st : Nat × Nat × Nat × Nat) (block : List Nat) :
    Nat × Nat × Nat × Nat :=
  let r := (List.range 64).foldl (step block) st
  ((st.1 + r.1) &&& mask32, (st.2.1 + r.2.1) &&& mask32,
   (st.2.2.1 + r.2.2.1) &&& mask32, (st.2.2.2 + r.2.2.2) &&& mask32)

/-- Low `count` bytes of `n`, little endian. -/
def leBytes : Nat → Nat → List Nat
  | _, 0 => []
  | n, k + 1 => (n &&& 255) :: leBytes (n >>> 8) k

/-- RFC 1321 padding: a 1-bit, zeros to 56 mod 64, then the bit length. -/
def padMsg (msg : List Nat) : List Nat :=
  let zeros := (120 - (msg.length + 1) % 64) % 64
  msg ++ [128] ++ List.replicate zeros 0 ++ leBytes (msg.length * 8) 8

/-- Split into 64-byte chunks; `fuel` bounds the recursion structurally. -/
def chunksAux : Nat → List Nat → List (List Nat)
  | 0, _ => []
  | _, [] => []
  | fuel + 1, l => l.take 64 :: chunksAux fuel (l.drop 64)

def chunks64 (l : List Nat) : List (List Nat) := chunksAux l.length l

/-- The 16-byte MD5 digest of a byte string. -/
def md5Bytes (msg : List Nat) : List Nat :=
  let r := (chunks64 (padMsg msg)).foldl processBlock
    (1732584193, 4023233417, 2562383102, 271733878)
  leBytes r.1 4 ++ leBytes r.2.1 4 ++ leBytes r.2.2.1 4 ++ leBytes r.2.2.2 4

/-- Lowercase hex digit. -/
def hexDigit (n : Nat) : Char :=
  if n < 10 then Char.ofNat (48 + n) else Char.ofNat (87 + n)

/-- Two lowercase hex digits of a byte. -/
def byteHex (b : Nat) : List Char := [hexDigit (b >>> 4), hexDigit (b &&& 15)]

/-- Lowercase hex string of a byte string. -/
def toHex (bs : List Nat) : List Char := (bs.map byteHex).flatten

end MD5

/-- Python `hashlib.md5(s.encode()).hexdigest()`. -/
def md5HexOfChars (s : List Char) : List Char := MD5.toHex (MD5.md5Bytes (encodeUtf8 s))

/-! ## Digest authentication (simple_sip_client.py lines 178-181)

    ha1 = hashlib.md5(f"(username):(realm):(password)".encode()).hexdigest()
    ha2 = hashlib.md5(f"(method):(uri)".encode()).hexdigest()
    response_hash = hashlib.md5(f"(ha1):(nonce):(ha2)".encode()).hexdigest()
-/

/-- The digest response computed by `SimpleSIPClient.handle_authentication`. -/
def digestResponse (username password realm nonce method uri : List Char) :
    List Char :=
  let ha1 := md5HexOfChars (username ++ chars ":" ++ realm ++ chars ":" ++ password)
  let ha2 := md5HexOfChars (method ++ chars ":" ++ uri)
  md5HexOfChars (ha1 ++ chars ":" ++ nonce ++ chars ":" ++ ha2)

/-- Modelled from the spec: the credential formula
hex(MD5(hex(MD5("user:realm:pass")) + ":" + nonce + ":" + hex(MD5("METHOD:uri")))). -/
def specDigestFormula (username password realm nonce method uri : List Char) :
    List Char :=
  md5HexOfChars
    (md5HexOfChars (username ++ chars ":" ++ realm ++ chars ":" ++ password)
      ++ chars ":" ++ nonce ++ chars ":"
      ++ md5HexOfChars (method ++ chars ":" ++ uri))

/-! ## Python string primitives

The source manipulates `str` values with `strip`, `split`, `startswith`
and the `in` operator; each is embedded on `List Char`.  `split(sep)`
for a one-character separator coincides with `List.splitOn`; the
multi-character and bounded (`maxsplit`) variants get a fuel-based
executable definition. -/

/-- The ASCII whitespace characters removed by Python `str.strip()`. -/
def isSpace (c : Char) : Bool :=
  c == ' ' || c == '\t' || c == '\n' || c == '\r' ||
    c == Char.ofNat 11 || c == Char.ofNat 12

/-- Python `s.strip()` (ASCII whitespace). -/
def pyStrip (s : List Char) : List Char :=
  ((s.dropWhile isSpace).reverse.dropWhile isSpace).reverse

/-- Python `s.strip(cs)`: strip any of the given characters from both ends. -/
def pyStripChars (cs s : List Char) : List Char :=
  ((s.dropWhile (fun c => cs.contains c)).reverse.dropWhile
    (fun c => cs.contains c)).reverse

/-- Python `s.startswith(p)`. -/
def pyStartsWith : List Char → List Char → Bool
  | _, [] => true
  | [], _ :: _ => false
  | a :: as, b :: bs => a == b && pyStartsWith as bs

/-- Python `needle in s` (substring containment). -/
def pyContains : List Char → List Char → Bool
  | [], n => n.isEmpty
  | a :: as, n => pyStartsWith (a :: as) n || pyContains as n

/-- Fuel-based worker for Python `s.split(sep, maxsplit)`, `sep` nonempty. -/
def pySplitAux (sep : List Char) : Nat → Nat → List Char → List Char →
    List (List Char)
  | 0, _, acc, rest => [acc.reverse ++ rest]
  | _ + 1, _, acc, [] => [acc.reverse]
  | _ + 1, 0, acc, rest => [acc.reverse ++ rest]
  | fuel + 1, m + 1, acc, a :: as =>
    if pyStartsWith (a :: as) sep then
      acc.reverse :: pySplitAux sep fuel m [] ((a :: as).drop sep.length)
    else
      pySplitAux sep fuel (m + 1) (a :: acc) as

/-- Python `s.split(sep, maxsplit)` for a nonempty separator string. -/
def pySplitN (sep : List Char) (maxsplit : Nat) (s : List Char) :
    List (List Char) :=
  pySplitAux sep (s.length + 1) maxsplit [] s

/-- Python `s.split(sep)` (unbounded) for a nonempty separator string. -/
def pySplitSeq (sep s : List Char) : List (List Char) :=
  pySplitN sep (s.length + 1) s

/-- Decimal digits of a natural number, fuel-based. -/
def natDigitsAux : Nat → Nat → List Char
  | 0, _ => []
  | fuel + 1, n =>
    if n < 10 then [Char.ofNat (48 + n)]
    else natDigitsAux fuel (n / 10) ++ [Char.ofNat (48 + n % 10)]

/-- Python `str(n)` for a natural number. -/
def natToChars (n : Nat) : List Char := natDigitsAux (n + 1) n

/-- ASCII decimal digit test. -/
def isDigit (c : Char) : Bool := 48 ≤ c.toNat && c.toNat ≤ 57

/-- Value of a digit string. -/
def digitsVal (ds : List Char) : Nat :=
  ds.foldl (fun acc c => acc * 10 + (c.toNat - 48)) 0

/-- Python `int(s)` restricted to ASCII decimal literals: optional
whitespace, optional sign, nonempty digit run.  Returns `none` where
Python raises `ValueError`. -/
def pyInt (s : List Char) : Option Int :=
  match pyStrip s with
  | '-' :: ds =>
    if !ds.isEmpty && ds.all isDigit then some (-(digitsVal ds : Int)) else none
  | '+' :: ds =>
    if !ds.isEmpty && ds.all isDigit then some (digitsVal ds : Int) else none
  | ds =>
    if !ds.isEmpty && ds.all isDigit then some (digitsVal ds : Int) else none

/-- ASCII lowercase of a character (Python `str.lower` on ASCII). -/
def lowerChar (c : Char) : Char :=
  if 65 ≤ c.toNat && c.toNat ≤ 90 then Char.ofNat (c.toNat + 32) else c

/-- ASCII lowercase of a string. -/
def lowerStr (s : List Char) : List Char := s.map lowerChar

/-! ## SIP message parser (src/sip_client/sip/messages.py)

`SIPMessage.__init__` zero-initialises every field and `_parse` fills
them in; `SIPMessageParser.parse` just constructs a `SIPMessage`. -/

/-- The fields of `SIPMessage` after construction. -/
structure SIPMsg where
  headers : List (List Char × List Char)
  body : List Char
  method : List Char
  uri : List Char
  version : List Char
  statusCode : Int
  reasonPhrase : List Char
deriving DecidableEq, Repr

/-- The zero-initialised `SIPMessage` fields (messages.py lines 14-22). -/
def SIPMsg.empty : SIPMsg :=
  { headers := [], body := [], method := [], uri := [], version := [],
    statusCode := 0, reasonPhrase := [] }

/-- Python dict assignment `d[k] = v` on an insertion-ordered map. -/
def dictInsert (k v : List Char) :
    List (List Char × List Char) → List (List Char × List Char)
  | [] => [(k, v)]
  | (k0, v0) :: rest =>
    if k0 == k then (k0, v) :: rest else (k0, v0) :: dictInsert k v rest

/-- The header loop of `_parse` (messages.py lines 53-63): walk the lines
after the first, collecting `key: value` pairs, stopping at the first
blank line; returns the headers and `some header_end` when a blank line
was found (`none` leaves `header_end = 1`). -/
def parseHeaderLines :
    List (List Char) → List (List Char × List Char) → Nat →
    List (List Char × List Char) × Option Nat
  | [], hs, _ => (hs, none)
  | l :: rest, hs, i =>
    let t := pyStrip l
    if t.isEmpty then (hs, some (i + 1))
    else if pyContains t (chars ":") then
      match pySplitN (chars ":") 1 t with
      | k :: v :: _ =>
        parseHeaderLines rest (dictInsert (pyStrip k) (pyStrip v) hs) (i + 1)
      | _ => parseHeaderLines rest hs (i + 1)
    else parseHeaderLines rest hs (i + 1)

/-- First-line classification of `_parse` (messages.py lines 32-51):
a stripped line starting with the version token is a status line, any
other line with at least three space-separated parts is a request line. -/
def parseFirstLine (firstLine : List Char) : SIPMsg :=
  if pyStartsWith firstLine (chars "SIP/2.0") then
    match pySplitN (chars " ") 2 firstLine with
    | v :: s :: rest =>
      { SIPMsg.empty with version := v, statusCode := (pyInt s).getD 0,
                          reasonPhrase := rest.headD [] }
    | _ => SIPMsg.empty
  else
    match List.splitOn ' ' firstLine with
    | m :: u :: v :: _ => { SIPMsg.empty with method := m, uri := u, version := v }
    | _ => SIPMsg.empty

/-- `SIPMessage._parse` (messages.py lines 26-67). -/
def parseSIP (raw : List Char) : SIPMsg :=
  let lines := List.splitOn '\n' raw
  let m1 := parseFirstLine (pyStrip (lines.headD []))
  let hdr := parseHeaderLines (lines.drop 1) [] 1
  let headerEnd := hdr.2.getD 1
  let body :=
    if headerEnd < lines.length then
      List.intercalate (chars "\n") (lines.drop headerEnd)
    else []
  { m1 with headers := hdr.1, body := body }

/-- The stripped first line of a datagram, as `_parse` computes it. -/
def firstLineOf (raw : List Char) : List Char :=
  pyStrip ((List.splitOn '\n' raw).headD [])

/-- A first line the parser accepts as a status line: the version token
followed by a token Python `int` accepts. -/
def statusLineOk (firstLine : List Char) : Bool :=
  pyStartsWith firstLine (chars "SIP/2.0") &&
    match pySplitN (chars " ") 2 firstLine with
    | _ :: s :: _ => (pyInt s).isSome
    | _ => false

/-- A first line the parser accepts as a request line: no version-token
prefix and at least three space-separated parts. -/
def requestLineOk (firstLine : List Char) : Bool :=
  !pyStartsWith firstLine (chars "SIP/2.0") &&
    decide ((List.splitOn ' ' firstLine).length ≥ 3)

/-- A malformed datagram: its first line is acceptable neither as a
status line nor as a request line. -/
def malformedDatagram (raw : List Char) : Bool :=
  !statusLineOk (firstLineOf raw) && !requestLineOk (firstLineOf raw)

/-- `SIPMessage.is_request` (messages.py lines 69-72): `bool(self.method)`. -/
def SIPMsg.isRequest (m : SIPMsg) : Bool := !m.method.isEmpty

/-- `SIPMessage.is_response` (messages.py lines 74-77): `status_code > 0`. -/
def SIPMsg.isResponseMsg (m : SIPMsg) : Bool := m.statusCode > 0

/-- `SIPMessage.get_header` (messages.py lines 79-84): first
case-insensitive match. -/
def SIPMsg.getHeader (m : SIPMsg) (name : List Char) : Option (List Char) :=
  (m.headers.find? (fun kv => lowerStr kv.1 == lowerStr name)).map (fun kv => kv.2)

/-! ## Message encoder (simple_sip_client.py lines 77-88)

`create_sip_message` renders the request line, the caller-supplied
headers in order, then `Content-Length: len(body)` — the Python
character count of the body string — a blank line, and the body. -/

/-- `SimpleSIPClient.create_sip_message`. -/
def createSipMessage (method uri : List Char)
    (headers : List (List Char × List Char)) (body : List Char) : List Char :=
  method ++ chars " " ++ uri ++ chars " SIP/2.0\r\n"
    ++ (headers.map (fun kv => kv.1 ++ chars ": " ++ kv.2 ++ chars "\r\n")).flatten
    ++ chars "Content-Length: " ++ natToChars body.length ++ chars "\r\n"
    ++ chars "\r\n" ++ body

/-- The lines of an encoded message before the body: request line,
header lines, the computed Content-Length line and the blank line, each
still carrying its carriage return (the newline is the separator). -/
def encodeLines (method uri : List Char) (hs : List (List Char × List Char))
    (body : List Char) : List (List Char) :=
  (method ++ chars " " ++ uri ++ chars " SIP/2.0\r") ::
    (hs.map (fun kv => kv.1 ++ chars ": " ++ kv.2 ++ chars "\r")) ++
    [chars "Content-Length: " ++ natToChars body.length ++ chars "\r", chars "\r"]

/-! ## Dialog bookkeeping (simple_sip_client.py lines 61-75)

`extract_sip_headers` walks the CRLF-separated lines of a response and
assigns `self.remote_tag` from any To line carrying `tag=` and
`self.contact_uri` from any Contact line. -/

/-- The `remote_tag` / `contact_uri` fields of `SimpleSIPClient`
(`None` until first assigned). -/
structure TagState where
  remoteTag : Option (List Char)
  contactUri : Option (List Char)
deriving DecidableEq, Repr

/-- The tag a To line yields: `line.split('tag=')[1].split(';')[0].strip()`. -/
def toLineTag (line : List Char) : List Char :=
  pyStrip ((pySplitSeq (chars ";")
    ((pySplitSeq (chars "tag=") line).getD 1 [])).getD 0 [])

/-- The URI a Contact line yields: the text between the first angle
brackets, else `line.split('Contact:')[1].strip().split(';')[0].strip()`. -/
def contactLineUri (line : List Char) : List Char :=
  if pyContains line (chars "<") && pyContains line (chars ">") then
    pyStrip ((pySplitSeq (chars ">")
      ((pySplitSeq (chars "<") line).getD 1 [])).getD 0 [])
  else
    pyStrip ((pySplitSeq (chars ";")
      (pyStrip ((pySplitSeq (chars "Contact:") line).getD 1 []))).getD 0 [])

/-- One iteration of the `extract_sip_headers` loop body. -/
def extractLine (st : TagState) (line : List Char) : TagState :=
  if pyStartsWith line (chars "To:") then
    if pyContains line (chars "tag=") then
      { st with remoteTag := some (toLineTag line) }
    else st
  else if pyStartsWith line (chars "Contact:") then
    { st with contactUri := some (contactLineUri line) }
  else st

/-- `SimpleSIPClient.extract_sip_headers`. -/
def extractSipHeaders (response : List Char) (st : TagState) : TagState :=
  (pySplitSeq (chars "\r\n") response).foldl extractLine st

/-- Accumulate the tag a line would assign, keeping the old value
otherwise. -/
def tagUpd (acc : Option (List Char)) (line : List Char) : Option (List Char) :=
  if pyStartsWith line (chars "To:") && pyContains line (chars "tag=") then
    some (toLineTag line)
  else acc

/-- Accumulate the Contact URI a line would assign, keeping the old
value otherwise. -/
def contactUpd (acc : Option (List Char)) (line : List Char) :
    Option (List Char) :=
  if !pyStartsWith line (chars "To:") && pyStartsWith line (chars "Contact:") then
    some (contactLineUri line)
  else acc

/-- The last To-line tag observable in a list of lines, if any. -/
def lastToTag (lines : List (List Char)) : Option (List Char) :=
  lines.foldl tagUpd none

/-- The last Contact-line URI observable in a list of lines, if any. -/
def lastContactUri (lines : List (List Char)) : Option (List Char) :=
  lines.foldl contactUpd none

/-! ## CSeq discipline within one dialog

The source manipulates `self.cseq` as follows:
  make_call (line 313) sets it to 1 and emits the initial INVITE with it;
  handle_authentication (line 184) increments before the resend;
  send_session_refresh (line 435) increments before the re-INVITE;
  hangup (line 487) increments before the BYE;
  send_ack (line 414) emits the current value without incrementing. -/

inductive SipMethod
  | invite
  | bye
  | ack
deriving DecidableEq, Repr

/-- The non-initial dialog operations that emit a request. -/
inductive DialogOp
  | authResend
  | sessionRefresh
  | hangup
  | sendAck
deriving DecidableEq, Repr

/-- The effect of one dialog operation on `self.cseq`, together with the
method and CSeq of the request it emits. -/
def dialogStep (c : Nat) : DialogOp → Nat × SipMethod × Nat
  | .authResend => (c + 1, .invite, c + 1)
  | .sessionRefresh => (c + 1, .invite, c + 1)
  | .hangup => (c + 1, .bye, c + 1)
  | .sendAck => (c, .ack, c)

/-- The requests emitted by a sequence of dialog operations starting
from CSeq counter `c`. -/
def dialogTrace : Nat → List DialogOp → List (SipMethod × Nat)
  | _, [] => []
  | c, op :: ops =>
    let r := dialogStep c op
    r.2 :: dialogTrace r.1 ops

/-- A full call trace: `make_call` resets the counter to 1 and emits the
initial INVITE, then the given operations run. -/
def callTrace (ops : List DialogOp) : List (SipMethod × Nat) :=
  (.invite, 1) :: dialogTrace 1 ops

/-- CSeq values of the non-ACK requests of a trace. -/
def nonAckCseqs (t : List (SipMethod × Nat)) : List Nat :=
  (t.filter (fun r => r.1 ≠ SipMethod.ack)).map (fun r => r.2)

/-- Every ACK in the trace carries the CSeq of the most recently emitted
non-ACK request (`last` tracks that value). -/
def acksMatch : Nat → List (SipMethod × Nat) → Prop
  | _, [] => True
  | last, (m, c) :: rest =>
    if m = SipMethod.ack then c = last ∧ acksMatch last rest
    else acksMatch c rest

/-! ## Call-control flows (simple_sip_client.py)

The stateful client is embedded as explicit state passing.  The UDP
socket becomes an `inbox` oracle of incoming datagrams (`recv` pops the
next one; an empty inbox is the `socket.timeout` exception, which every
flow catches, logs and converts into a `False` return) and an `outbox`
of structured sent requests.  `random`-generated branches are drawn
from a caller-supplied stream; fresh Call-IDs and tags are passed in
where the source regenerates them. -/

/-- One request handed to `create_sip_message` and sent. -/
structure SentMsg where
  method : List Char
  uri : List Char
  headers : List (List Char × List Char)
  body : List Char
deriving DecidableEq, Repr

/-- The configuration read from the environment (`self.config`) plus
the host identity strings the source obtains from `socket`. -/
structure Config where
  username : List Char
  password : List Char
  domain : List Char
  port : List Char
  hostname : List Char
  localIp : List Char
deriving DecidableEq, Repr

/-- The mutable fields of `SimpleSIPClient`, with the reified socket. -/
structure SimState where
  cfg : Config
  callId : List Char
  localTag : List Char
  branch : List Char
  branchSupply : List (List Char)
  cseq : Nat
  tags : TagState
  registered : Bool
  inbox : List (List Char)
  sent : List SentMsg
  errors : List (List Char)
deriving DecidableEq, Repr

/-- `generate_branch`: draw the next pseudo-random branch. -/
def genBranch (st : SimState) : List Char × SimState :=
  match st.branchSupply with
  | [] => (chars "z9hG4bK000000", st)
  | b :: rest => (b, { st with branchSupply := rest })

/-- `socket.recvfrom`: `none` is the timeout exception. -/
def recvMsg (st : SimState) : Option (List Char) × SimState :=
  match st.inbox with
  | [] => (none, st)
  | r :: rest => (some r, { st with inbox := rest })

/-- `socket.sendto`: record the outgoing request. -/
def sendMsg (st : SimState) (m : SentMsg) : SimState :=
  { st with sent := st.sent ++ [m] }

/-- An exception caught and printed by the source. -/
def pushError (st : SimState) (e : List Char) : SimState :=
  { st with errors := st.errors ++ [e] }

/-- The Via header value used by every request builder. -/
def viaValue (cfg : Config) (branch : List Char) : List Char :=
  chars "SIP/2.0/UDP " ++ cfg.hostname ++ chars ":" ++ cfg.port
    ++ chars ";branch=" ++ branch

/-- The From header value. -/
def fromValue (cfg : Config) (tag : List Char) : List Char :=
  chars "<sip:" ++ cfg.username ++ chars "@" ++ cfg.domain ++ chars ">;tag=" ++ tag

/-- The To header value without a tag. -/
def toValuePlain (cfg : Config) : List Char :=
  chars "<sip:" ++ cfg.username ++ chars "@" ++ cfg.domain ++ chars ">"

/-- The Contact header value. -/
def contactValue (cfg : Config) : List Char :=
  chars "<sip:" ++ cfg.username ++ chars "@" ++ cfg.hostname ++ chars ":"
    ++ cfg.port ++ chars ">"

/-- A CSeq header value: the counter then the method. -/
def cseqValue (n : Nat) (method : List Char) : List Char :=
  natToChars n ++ chars " " ++ method

/-- The fixed SDP template (simple_sip_client.py lines 206-218, 331-343). -/
def sdpBody (cfg : Config) : List Char :=
  chars "v=0\no=" ++ cfg.username ++ chars " 123456 123456 IN IP4 " ++ cfg.localIp
    ++ chars "\ns=Python SIP Client\nc=IN IP4 " ++ cfg.localIp
    ++ chars "\nt=0 0\nm=audio 10000 RTP/AVP 0 8 18 101\na=rtpmap:0 PCMU/8000\n"
    ++ chars "a=rtpmap:8 PCMA/8000\na=rtpmap:18 G729/8000\n"
    ++ chars "a=rtpmap:101 telephone-event/8000\na=fmtp:101 0-16\na=sendrecv\n"

/-- The Authorization header value (line 196). -/
def authorizationValue (cfg : Config) (realm nonce uri respHash : List Char) :
    List Char :=
  chars "Digest username=\"" ++ cfg.username ++ chars "\", realm=\"" ++ realm
    ++ chars "\", nonce=\"" ++ nonce ++ chars "\", uri=\"" ++ uri
    ++ chars "\", response=\"" ++ respHash ++ chars "\""

/-- The first WWW-Authenticate / Proxy-Authenticate line of a response
(lines 152-156). -/
def findAuthHeader (response : List Char) : Option (List Char) :=
  (pySplitSeq (chars "\r\n") response).find? (fun l =>
    pyStartsWith l (chars "WWW-Authenticate:") ||
      pyStartsWith l (chars "Proxy-Authenticate:"))

/-- One iteration of the challenge-field loop (lines 166-172). -/
def challengeFold (acc : Option (List Char) × Option (List Char))
    (part : List Char) : Option (List Char) × Option (List Char) :=
  let p := pyStrip part
  if pyContains p (chars "realm=") then
    (some (pyStripChars (chars "\"") ((pySplitSeq (chars "realm=") p).getD 1 [])),
     acc.2)
  else if pyContains p (chars "nonce=") then
    (acc.1,
     some (pyStripChars (chars "\"") ((pySplitSeq (chars "nonce=") p).getD 1 [])))
  else acc

/-- The realm and nonce extracted from an authentication header. -/
def parseChallenge (h : List Char) :
    Option (List Char) × Option (List Char) :=
  (pySplitSeq (chars ",") h).foldl challengeFold (none, none)

/-- Python truthiness of an optional string (`if not realm or not nonce`). -/
def truthyOpt : Option (List Char) → Bool
  | none => false
  | some s => !s.isEmpty

/-- The response carries a challenge and the challenge parses with a
truthy realm and nonce, so `handle_authentication` reaches the resend. -/
def challengeParses (response : List Char) : Bool :=
  match findAuthHeader response with
  | none => false
  | some h => truthyOpt (parseChallenge h).1 && truthyOpt (parseChallenge h).2

/-- `send_ack` (lines 397-427): address the learned Contact URI or fall
back to the configured domain; fresh branch; CSeq reuses the current
counter.  A `None` tag renders as the string None, as Python f-strings
do. -/
def sendAckFn (st0 : SimState) : SimState :=
  let uri := match st0.tags.contactUri with
    | some u => u
    | none => chars "sip:" ++ st0.cfg.domain
  let br := genBranch st0
  let st := br.2
  sendMsg st
    { method := chars "ACK", uri := uri,
      headers :=
        [(chars "Via", viaValue st.cfg br.1),
         (chars "From", fromValue st.cfg st.localTag),
         (chars "To",
          chars "<sip:" ++ st.cfg.username ++ chars "@" ++ st.cfg.domain
            ++ chars ">;tag=" ++ (st.tags.remoteTag.getD (chars "None"))),
         (chars "Call-ID", st.callId),
         (chars "CSeq", cseqValue st.cseq (chars "ACK")),
         (chars "Max-Forwards", chars "70"),
         (chars "User-Agent", chars "Python SIP Client 1.0")],
      body := [] }

/-- `handle_authentication` (lines 148-296). -/
def handleAuthentication (st0 : SimState) (response method uri : List Char) :
    Bool × SimState :=
  match findAuthHeader response with
  | none => (false, st0)
  | some authHeader =>
    let rn := parseChallenge authHeader
    if !truthyOpt rn.1 || !truthyOpt rn.2 then (false, st0)
    else
      let realm := rn.1.getD []
      let nonce := rn.2.getD []
      let respHash :=
        digestResponse st0.cfg.username st0.cfg.password realm nonce method uri
      let br := genBranch { st0 with cseq := st0.cseq + 1 }
      let st2 := { br.2 with branch := br.1 }
      let baseHeaders :=
        [(chars "Via", viaValue st2.cfg br.1),
         (chars "From", fromValue st2.cfg st2.localTag),
         (chars "To", toValuePlain st2.cfg),
         (chars "Call-ID", st2.callId),
         (chars "CSeq", cseqValue st2.cseq method),
         (chars "Contact", contactValue st2.cfg),
         (chars "Max-Forwards", chars "70"),
         (chars "User-Agent", chars "Python SIP Client 1.0"),
         (chars "Authorization",
          authorizationValue st2.cfg realm nonce uri respHash)]
      let msg : SentMsg :=
        if method == chars "REGISTER" then
          { method := method, uri := uri,
            headers := baseHeaders ++ [(chars "Expires", chars "3600")],
            body := [] }
        else if method == chars "INVITE" then
          { method := method, uri := uri,
            headers := baseHeaders ++ [(chars "Content-Type", chars "application/sdp")],
            body := sdpBody st2.cfg }
        else
          { method := method, uri := uri, headers := baseHeaders, body := [] }
      let st3 := sendMsg st2 msg
      match recvMsg st3 with
      | (none, st4) => (false, pushError st4 (chars "timed out"))
      | (some r2, st4) =>
        if pyContains r2 (chars "200 OK") then
          if method == chars "REGISTER" then (true, { st4 with registered := true })
          else if method == chars "INVITE" then (true, sendAckFn st4)
          else (true, st4)
        else if pyContains r2 (chars "100 Trying") && method == chars "INVITE" then
          match recvMsg st4 with
          | (none, st5) => (false, pushError st5 (chars "timed out"))
          | (some r3, st5) =>
            let n1 := if pyContains r3 (chars "183 Session Progress") then
                recvMsg st5 else (some r3, st5)
            match n1 with
            | (none, st6) => (false, pushError st6 (chars "timed out"))
            | (some r4, st6) =>
              let n2 := if pyContains r4 (chars "180 Ringing") then
                  recvMsg st6 else (some r4, st6)
              match n2 with
              | (none, st7) => (false, pushError st7 (chars "timed out"))
              | (some r5, st7) =>
                if pyContains r5 (chars "200 OK") then
                  let st8 := { st7 with tags := extractSipHeaders r5 st7.tags }
                  (true, sendAckFn st8)
                else (false, st7)
        else (false, st4)

/-- The number formatting of `make_call` (lines 306-307). -/
def formatNumber (number : List Char) : List Char :=
  if pyStartsWith number (chars "+") then number else chars "+1" ++ number

/-- `make_call` (lines 298-395).  `newCallId` and `newTag` stand for the
regenerated call identifiers. -/
def makeCall (st0 : SimState) (number newCallId newTag : List Char) :
    Bool × SimState :=
  if !st0.registered then (false, st0)
  else
    let num := formatNumber number
    let br := genBranch { st0 with callId := newCallId, localTag := newTag, cseq := 1 }
    let st2 := { br.2 with branch := br.1 }
    let uri := chars "sip:" ++ num ++ chars "@" ++ st2.cfg.domain
    let st3 := sendMsg st2
      { method := chars "INVITE", uri := uri,
        headers :=
          [(chars "Via", viaValue st2.cfg br.1),
           (chars "From", fromValue st2.cfg newTag),
           (chars "To",
            chars "<sip:" ++ num ++ chars "@" ++ st2.cfg.domain ++ chars ">"),
           (chars "Call-ID", newCallId),
           (chars "CSeq", cseqValue st2.cseq (chars "INVITE")),
           (chars "Contact", contactValue st2.cfg),
           (chars "Max-Forwards", chars "70"),
           (chars "User-Agent", chars "Python SIP Client 1.0"),
           (chars "Content-Type", chars "application/sdp")],
        body := sdpBody st2.cfg }
    match recvMsg st3 with
    | (none, st4) => (false, pushError st4 (chars "timed out"))
    | (some r1, st4) =>
      let s1 := if pyContains r1 (chars "100 Trying") then recvMsg st4
        else (some r1, st4)
      match s1 with
      | (none, st5) => (false, pushError st5 (chars "timed out"))
      | (some r2, st5) =>
        let s2 := if pyContains r2 (chars "180 Ringing") then recvMsg st5
          else (some r2, st5)
        match s2 with
        | (none, st6) => (false, pushError st6 (chars "timed out"))
        | (some r3, st6) =>
          if pyContains r3 (chars "401 Unauthorized") ||
              pyContains r3 (chars "407 Proxy Authentication Required") then
            handleAuthentication st6 r3 (chars "INVITE") uri
          else if pyContains r3 (chars "200 OK") then
            let st7 := { st6 with tags := extractSipHeaders r3 st6.tags }
            (true, sendAckFn st7)
          else (false, st6)

/-- `send_register` (lines 90-146).  `newCallId` and `newTag` stand for
the regenerated identifiers of lines 97-98. -/
def sendRegister (st0 : SimState) (newCallId newTag : List Char) :
    Bool × SimState :=
  let br := genBranch { st0 with callId := newCallId, localTag := newTag }
  let st2 := { br.2 with branch := br.1 }
  let uri := chars "sip:" ++ st2.cfg.domain
  let st3 := sendMsg st2
    { method := chars "REGISTER", uri := uri,
      headers :=
        [(chars "Via", viaValue st2.cfg br.1),
         (chars "From", fromValue st2.cfg newTag),
         (chars "To", toValuePlain st2.cfg),
         (chars "Call-ID", newCallId),
         (chars "CSeq", cseqValue st2.cseq (chars "REGISTER")),
         (chars "Contact", contactValue st2.cfg),
         (chars "Max-Forwards", chars "70"),
         (chars "User-Agent", chars "Python SIP Client 1.0"),
         (chars "Expires", chars "3600")],
      body := [] }
  match recvMsg st3 with
  | (none, st4) => (false, pushError st4 (chars "timed out"))
  | (some r1, st4) =>
    if pyContains r1 (chars "401 Unauthorized") ||
        pyContains r1 (chars "407 Proxy Authentication Required") then
      handleAuthentication st4 r1 (chars "REGISTER") uri
    else if pyContains r1 (chars "200 OK") then
      (true, { st4 with registered := true })
    else (false, st4)

/-- Whether a sent request carries an Authorization header. -/
def SentMsg.hasAuth (m : SentMsg) : Bool :=
  m.headers.any (fun kv => kv.1 == chars "Authorization")

/-- The CSeq header value of a sent request. -/
def SentMsg.cseqHdr (m : SentMsg) : Option (List Char) :=
  (m.headers.find? (fun kv => kv.1 == chars "CSeq")).map (fun kv => kv.2)

/-- The Via header value of a sent request. -/
def SentMsg.viaHdr (m : SentMsg) : Option (List Char) :=
  (m.headers.find? (fun kv => kv.1 == chars "Via")).map (fun kv => kv.2)

/-- `RegistrationState` (models/enums.py). -/
inductive RegState
  | unregistered
  | registering
  | registered
  | unregistering
  | failed
deriving DecidableEq, Repr

/-- A fresh `SIPClient` starts UNREGISTERED (client.py line 49). -/
def freshRegState : RegState := RegState.unregistered

/-- `SIPClient.register` (client.py lines 65-79).  The registration
state is only assigned after `send_register` returns, so the first
component reports the value it holds while the receive blocks: the
unchanged `pre`.  The second component is the final state. -/
def clientRegister (pre : RegState) (st : SimState) (newCallId newTag : List Char) :
    RegState × RegState × Bool × SimState :=
  let r := sendRegister st newCallId newTag
  (pre, if r.1 then RegState.registered else RegState.failed, r.1, r.2)

/-- `CallState` (models/enums.py). -/
inductive CallState
  | idle
  | calling
  | ringing
  | connecting
  | connected
  | disconnecting
  | disconnected
  | failed
deriving DecidableEq, Repr

/-- The number extraction of `SIPClient.make_call` (client.py lines
96-101): from `sip:user@domain` take the user part, else use the
target as given. -/
def extractNumber (targetUri : List Char) : List Char :=
  if pyStartsWith targetUri (chars "sip:") then
    (pySplitSeq (chars "@")
      ((pySplitSeq (chars ":") targetUri).getD 1 [])).getD 0 []
  else targetUri

/-- `SIPClient.make_call` (client.py lines 92-118) with the per-call
state map (`self.calls`) reified.  The map is only written after the
underlying `make_call` succeeds, when a CONNECTED entry is added; a
failed attempt returns `none` and leaves the map untouched — no
Calling or Failed entry is ever recorded.  The first component is the
map as it stands while the receive blocks (the unchanged input), the
second the final map, the third the returned call id. -/
def clientMakeCall (calls : List (List Char × CallState)) (st : SimState)
    (targetUri newCallId newTag : List Char) :
    List (List Char × CallState) × List (List Char × CallState) ×
      Option (List Char) × SimState :=
  let number := extractNumber targetUri
  let r := makeCall st number newCallId newTag
  if r.1 then
    (calls, calls ++ [(chars "call_" ++ number, CallState.connected)],
      some (chars "call_" ++ number), r.2)
  else (calls, calls, none, r.2)

/-- A client state as `__init__` leaves it, with the oracle inputs made
explicit: branch supply, CSeq counter, registered flag and inbox. -/
def mkState (cfg : Config) (bsupply : List (List Char)) (c0 : Nat)
    (reg : Bool) (inbox : List (List Char)) : SimState :=
  { cfg := cfg, callId := [], localTag := [], branch := [],
    branchSupply := bsupply, cseq := c0,
    tags := { remoteTag := none, contactUri := none },
    registered := reg, inbox := inbox, sent := [], errors := [] }

/-- An all-empty sent request, used as a lookup default. -/
def noMsg : SentMsg := { method := [], uri := [], headers := [], body := [] }

/-- A concrete configuration used by witnesses and counterexamples. -/
def demoCfg : Config :=
  { username := chars "alice", password := chars "secret",
    domain := chars "example.com", port := chars "5060",
    hostname := chars "host", localIp := chars "10.0.0.2" }

/-- A concrete 401 challenge response used by witnesses. -/
def demoChallenge : List Char :=
  chars "SIP/2.0 401 Unauthorized\r\nWWW-Authenticate: Digest realm=\"example.com\", nonce=\"abc123\"\r\n\r\n"

/-- A concrete bare 401 response (no challenge) used by witnesses. -/
def demo401 : List Char := chars "SIP/2.0 401 Unauthorized\r\n\r\n"

/-- A concrete 200 final response used by witnesses. -/
def demoOK : List Char :=
  chars "SIP/2.0 200 OK\r\nTo: <sip:b@x>;tag=77\r\nContact: <sip:cc@dd>\r\n\r\n"

/-- A concrete 100 provisional response used by witnesses. -/
def demo100 : List Char := chars "SIP/2.0 100 Trying\r\n\r\n"

/-- A concrete 180 provisional response used by witnesses. -/
def demo180 : List Char := chars "SIP/2.0 180 Ringing\r\n\r\n"

/-- A concrete 486 final response used by witnesses. -/
def demo486 : List Char := chars "SIP/2.0 486 Busy Here\r\n\r\n"

/-! # Theorems -/

/-- C1: the digest response computed by the authentication handler is
exactly hex(MD5(hex(MD5("user:realm:pass")) + ":" + nonce + ":" +
hex(MD5("METHOD:uri")))) for every account, challenge, method and
request-URI, and on the concrete example (alice / example.com / secret,
nonce abc123, REGISTER, sip:example.com) it equals the literal hex
digest of that formula. -/
theorem c1_digest_response :
    (∀ username password realm nonce method uri,
      digestResponse username password realm nonce method uri =
        specDigestFormula username password realm nonce method uri) ∧
    digestResponse (chars "alice") (chars "secret") (chars "example.com")
        (chars "abc123") (chars "REGISTER") (chars "sip:example.com") =
      chars "d1d211daa2e0d7f43de25792410f5057" := by
  constructor
  · intro username password realm nonce method uri
    rfl
  · set_option maxRecDepth 100000 in decide

/-- C2: the encoder does not emit the byte length of the body; it emits
the Python character count.  On the one-character body consisting of the
letter e with acute accent — two bytes in UTF-8 — the emitted
Content-Length header reads 1 while the encoded body is 2 bytes long. -/
theorem c2_content_length_counts_chars :
    (parseSIP (createSipMessage (chars "MESSAGE") (chars "sip:example.com") []
        (chars "é"))).getHeader (chars "Content-Length") = some (chars "1") ∧
    utf8Len (chars "é") = 2 ∧
    (chars "é").length = 1 := by
  refine ⟨by decide, by decide, by decide⟩

/-! Helper lemmas for the CSeq discipline (C3). -/

lemma nonAckCseqs_cons_invite (c : Nat) (t : List (SipMethod × Nat)) :
    nonAckCseqs ((SipMethod.invite, c) :: t) = c :: nonAckCseqs t := by
  simp [nonAckCseqs, List.filter_cons,
    show (decide (SipMethod.invite = SipMethod.ack)) = false from rfl]

lemma nonAckCseqs_cons_bye (c : Nat) (t : List (SipMethod × Nat)) :
    nonAckCseqs ((SipMethod.bye, c) :: t) = c :: nonAckCseqs t := by
  simp [nonAckCseqs, List.filter_cons,
    show (decide (SipMethod.bye = SipMethod.ack)) = false from rfl]

lemma nonAckCseqs_cons_ack (c : Nat) (t : List (SipMethod × Nat)) :
    nonAckCseqs ((SipMethod.ack, c) :: t) = nonAckCseqs t := by
  simp [nonAckCseqs, List.filter_cons]

lemma dialogTrace_chain (ops : List DialogOp) :
    ∀ c, List.Chain' (· < ·) (c :: nonAckCseqs (dialogTrace c ops)) := by
  induction ops with
  | nil => intro c; simp [dialogTrace, nonAckCseqs]
  | cons op ops ih =>
    intro c
    cases op
    case authResend =>
      show List.Chain' (· < ·)
        (c :: nonAckCseqs ((SipMethod.invite, c + 1) :: dialogTrace (c + 1) ops))
      rw [nonAckCseqs_cons_invite]
      exact List.Chain'.cons (Nat.lt_succ_self c) (ih (c + 1))
    case sessionRefresh =>
      show List.Chain' (· < ·)
        (c :: nonAckCseqs ((SipMethod.invite, c + 1) :: dialogTrace (c + 1) ops))
      rw [nonAckCseqs_cons_invite]
      exact List.Chain'.cons (Nat.lt_succ_self c) (ih (c + 1))
    case hangup =>
      show List.Chain' (· < ·)
        (c :: nonAckCseqs ((SipMethod.bye, c + 1) :: dialogTrace (c + 1) ops))
      rw [nonAckCseqs_cons_bye]
      exact List.Chain'.cons (Nat.lt_succ_self c) (ih (c + 1))
    case sendAck =>
      show List.Chain' (· < ·)
        (c :: nonAckCseqs ((SipMethod.ack, c) :: dialogTrace c ops))
      rw [nonAckCseqs_cons_ack]
      exact ih c

lemma dialogTrace_acks (ops : List DialogOp) :
    ∀ c, acksMatch c (dialogTrace c ops) := by
  induction ops with
  | nil => intro c; trivial
  | cons op ops ih =>
    intro c
    cases op <;> simp [dialogTrace, dialogStep, acksMatch] <;> exact ih _

/-- C3: within one dialog the CSeq values of the emitted non-ACK
requests (initial INVITE, authenticated resend, session refresh, BYE)
form a strictly increasing sequence, and every ACK carries the CSeq of
the most recently emitted non-ACK request — in particular the ACK after
a successful INVITE reuses that INVITE CSeq instead of incrementing. -/
theorem c3_cseq_discipline (ops : List DialogOp) :
    List.Chain' (· < ·) (nonAckCseqs (callTrace ops)) ∧
    acksMatch 0 (callTrace ops) := by
  constructor
  · have h := dialogTrace_chain ops 1
    simpa [callTrace, nonAckCseqs] using h
  · have h := dialogTrace_acks ops 1
    simpa [callTrace, acksMatch] using h

/-! Helper lemmas for dialog-state capture (C7). -/

lemma tagUpd_shape (a : Option (List Char)) (l : List Char) :
    tagUpd a l = (tagUpd none l).or a := by
  unfold tagUpd
  split <;> simp [Option.or]

lemma contactUpd_shape (a : Option (List Char)) (l : List Char) :
    contactUpd a l = (contactUpd none l).or a := by
  unfold contactUpd
  split <;> simp [Option.or]

lemma option_or_assoc (a b c : Option (List Char)) :
    (a.or b).or c = a.or (b.or c) := by
  cases a <;> rfl

lemma foldl_upd_or (f : Option (List Char) → List Char → Option (List Char))
    (hf : ∀ a l, f a l = (f none l).or a) (ls : List (List Char)) :
    ∀ a, ls.foldl f a = (ls.foldl f none).or a := by
  induction ls with
  | nil => intro a; rfl
  | cons l ls ih =>
    intro a
    simp only [List.foldl_cons]
    rw [ih (f a l), hf a l, ← option_or_assoc, ← ih (f none l)]

lemma extractLine_remoteTag (st : TagState) (line : List Char) :
    (extractLine st line).remoteTag = (tagUpd none line).or st.remoteTag := by
  unfold extractLine tagUpd
  by_cases h1 : pyStartsWith line (chars "To:") <;>
    by_cases h2 : pyContains line (chars "tag=") <;>
      by_cases h3 : pyStartsWith line (chars "Contact:") <;>
        simp [h1, h2, h3, Option.or]

lemma extractLine_contactUri (st : TagState) (line : List Char) :
    (extractLine st line).contactUri = (contactUpd none line).or st.contactUri := by
  unfold extractLine contactUpd
  by_cases h1 : pyStartsWith line (chars "To:") <;>
    by_cases h2 : pyContains line (chars "tag=") <;>
      by_cases h3 : pyStartsWith line (chars "Contact:") <;>
        simp [h1, h2, h3, Option.or]

lemma extract_fold_tag (ls : List (List Char)) :
    ∀ st : TagState,
      (ls.foldl extractLine st).remoteTag = (ls.foldl tagUpd none).or st.remoteTag := by
  induction ls with
  | nil => intro st; rfl
  | cons l ls ih =>
    intro st
    simp only [List.foldl_cons]
    rw [ih (extractLine st l), extractLine_remoteTag,
      foldl_upd_or tagUpd tagUpd_shape ls (tagUpd none l), option_or_assoc]

lemma extract_fold_contact (ls : List (List Char)) :
    ∀ st : TagState,
      (ls.foldl extractLine st).contactUri =
        (ls.foldl contactUpd none).or st.contactUri := by
  induction ls with
  | nil => intro st; rfl
  | cons l ls ih =>
    intro st
    simp only [List.foldl_cons]
    rw [ih (extractLine st l), extractLine_contactUri,
      foldl_upd_or contactUpd contactUpd_shape ls (contactUpd none l),
      option_or_assoc]

/-- C7 counterexample: with remoteTag already set to 111, processing a
response whose To line carries tag=222 overwrites it — the claim says a
set remoteTag is kept for the life of the dialog. -/
theorem c7_remote_tag_counterexample :
    (extractSipHeaders
        (chars "SIP/2.0 200 OK\r\nTo: <sip:a@b>;tag=222\r\nContact: <sip:c@d>\r\n\r\n")
        { remoteTag := some (chars "111"), contactUri := none }).remoteTag =
      some (chars "222") ∧
    ((chars "222" : List Char) == chars "111") = false :=
  ⟨by decide, by decide⟩

/-- C7 amended: both captures are latest-wins.  After processing a
response, remoteTag equals the last To-line tag observed in it (keeping
the previous value only when no tagged To line appears), and
contactUri likewise equals the last Contact value observed. -/
theorem c7_latest_wins_amended (response : List Char) (st : TagState) :
    (extractSipHeaders response st).remoteTag =
      (lastToTag (pySplitSeq (chars "\r\n") response)).or st.remoteTag ∧
    (extractSipHeaders response st).contactUri =
      (lastContactUri (pySplitSeq (chars "\r\n") response)).or st.contactUri :=
  ⟨extract_fold_tag _ st, extract_fold_contact _ st⟩

/-! Helper lemmas for the parser classification (C4, C10). -/

lemma parseFirstLine_not_both (l : List Char) :
    ((parseFirstLine l).isRequest && (parseFirstLine l).isResponseMsg) = false := by
  unfold parseFirstLine SIPMsg.isRequest SIPMsg.isResponseMsg
  split
  · split <;> simp [SIPMsg.empty]
  · split <;> simp [SIPMsg.empty]

lemma parseFirstLine_malformed (l : List Char)
    (h1 : statusLineOk l = false) (h2 : requestLineOk l = false) :
    (parseFirstLine l).method = [] ∧ (parseFirstLine l).statusCode = 0 := by
  unfold statusLineOk at h1
  unfold requestLineOk at h2
  unfold parseFirstLine
  split
  case isTrue hp =>
    rw [hp, Bool.true_and] at h1
    cases hm : pySplitN (chars " ") 2 l with
    | nil => exact ⟨rfl, rfl⟩
    | cons v rest =>
      cases rest with
      | nil => exact ⟨rfl, rfl⟩
      | cons s rest2 =>
        rw [hm] at h1
        have h1' : (pyInt s).isSome = false := h1
        refine ⟨rfl, ?_⟩
        show (pyInt s).getD 0 = 0
        cases hpi : pyInt s with
        | none => rfl
        | some n => rw [hpi] at h1'; simp at h1'
  case isFalse hp =>
    have hp' : pyStartsWith l (chars "SIP/2.0") = false := by
      cases hb : pyStartsWith l (chars "SIP/2.0")
      · rfl
      · exact absurd hb hp
    rw [hp', Bool.not_false, Bool.true_and] at h2
    cases hm : List.splitOn ' ' l with
    | nil => exact ⟨rfl, rfl⟩
    | cons m rest =>
      cases rest with
      | nil => exact ⟨rfl, rfl⟩
      | cons u rest2 =>
        cases rest2 with
        | nil => exact ⟨rfl, rfl⟩
        | cons v t =>
          exfalso
          rw [hm] at h2
          simp only [decide_eq_false_iff_not, List.length_cons, ge_iff_le] at h2
          omega

/-- C4: decoding is total, and a malformed datagram — one whose first
line is acceptable neither as a status line (version token plus an
integer code) nor as a request line (three space-separated parts) —
parses to a message with empty method and status code 0, classified as
neither a request nor a response. -/
theorem c4_malformed_decode (raw : List Char)
    (h : malformedDatagram raw = true) :
    (parseSIP raw).method = [] ∧ (parseSIP raw).statusCode = 0 ∧
    (parseSIP raw).isRequest = false ∧ (parseSIP raw).isResponseMsg = false := by
  unfold malformedDatagram at h
  have h1 : statusLineOk (firstLineOf raw) = false := by
    cases hb : statusLineOk (firstLineOf raw)
    · rfl
    · rw [hb] at h; simp at h
  have h2 : requestLineOk (firstLineOf raw) = false := by
    cases hb : requestLineOk (firstLineOf raw)
    · rfl
    · rw [hb] at h; simp at h
  obtain ⟨hm0, hs0⟩ := parseFirstLine_malformed _ h1 h2
  have hm : (parseSIP raw).method = (parseFirstLine (firstLineOf raw)).method := rfl
  have hs : (parseSIP raw).statusCode =
      (parseFirstLine (firstLineOf raw)).statusCode := rfl
  refine ⟨?_, ?_, ?_, ?_⟩ <;>
    simp [SIPMsg.isRequest, SIPMsg.isResponseMsg, hm, hs, hm0, hs0]

/-- Witness for C4 at the concrete non-SIP datagram "hello". -/
theorem c4_malformed_decode_witness :
    malformedDatagram (chars "hello") = true ∧
    ((parseSIP (chars "hello")).method = [] ∧
     (parseSIP (chars "hello")).statusCode = 0 ∧
     (parseSIP (chars "hello")).isRequest = false ∧
     (parseSIP (chars "hello")).isResponseMsg = false) :=
  ⟨by decide, c4_malformed_decode (chars "hello") (by decide)⟩

/-- C10: no input parses to a message that is simultaneously a request
and a response; the first line sets either the method or the status
code, never both. -/
theorem c10_request_response_exclusive (raw : List Char) :
    ((parseSIP raw).isRequest && (parseSIP raw).isResponseMsg) = false := by
  have hm : (parseSIP raw).method = (parseFirstLine (firstLineOf raw)).method := rfl
  have hs : (parseSIP raw).statusCode =
      (parseFirstLine (firstLineOf raw)).statusCode := rfl
  have h := parseFirstLine_not_both (firstLineOf raw)
  simp only [SIPMsg.isRequest, SIPMsg.isResponseMsg, hm, hs] at *
  exact h

/-- C6: on a challenge (401/407) whose WWW-Authenticate or
Proxy-Authenticate header parses, the engine resends the request
exactly once, with an
Authorization header, CSeq incremented by one and the next fresh
branch - the sent trace is exactly the original request followed by
the single authenticated resend; if the response to that resend is
not a 200 (in particular any further challenge), the attempt returns
definitive failure with no further send.  Both the REGISTER flow and
the INVITE flow are covered. -/
theorem c6_auth_retry_once (cfg : Config) (b1 b2 : List Char)
    (bs : List (List Char)) (c0 : Nat) (cid tag r1 r2 : List Char)
    (rest : List (List Char))
    (d1 d2 : List Char) (ds : List (List Char)) (c1 : Nat)
    (cid2 tag2 number q1 q2 : List Char) (qrest : List (List Char))
    (hch : (pyContains r1 (chars "401 Unauthorized") ||
        pyContains r1 (chars "407 Proxy Authentication Required")) = true)
    (hpa : challengeParses r1 = true)
    (hq100 : pyContains q1 (chars "100 Trying") = false)
    (hq180 : pyContains q1 (chars "180 Ringing") = false)
    (hq401 : (pyContains q1 (chars "401 Unauthorized") ||
        pyContains q1 (chars "407 Proxy Authentication Required")) = true)
    (hqpa : challengeParses q1 = true)
    (hq200 : pyContains q2 (chars "200 OK") = false)
    (hq100b : pyContains q2 (chars "100 Trying") = false) :
    ((sendRegister (mkState cfg (b1 :: b2 :: bs) c0 false (r1 :: r2 :: rest))
        cid tag).2.sent.map (fun m => (m.method, m.hasAuth, m.cseqHdr, m.viaHdr))) =
      [(chars "REGISTER", false, some (cseqValue c0 (chars "REGISTER")),
        some (viaValue cfg b1)),
       (chars "REGISTER", true, some (cseqValue (c0 + 1) (chars "REGISTER")),
        some (viaValue cfg b2))] ∧
    (pyContains r2 (chars "200 OK") = false →
      (sendRegister (mkState cfg (b1 :: b2 :: bs) c0 false (r1 :: r2 :: rest))
        cid tag).1 = false) ∧
    ((makeCall (mkState cfg (d1 :: d2 :: ds) c1 true (q1 :: q2 :: qrest))
        number cid2 tag2).2.sent.map
          (fun m => (m.method, m.hasAuth, m.cseqHdr, m.viaHdr))) =
      [(chars "INVITE", false, some (cseqValue 1 (chars "INVITE")),
        some (viaValue cfg d1)),
       (chars "INVITE", true, some (cseqValue 2 (chars "INVITE")),
        some (viaValue cfg d2))] ∧
    (makeCall (mkState cfg (d1 :: d2 :: ds) c1 true (q1 :: q2 :: qrest))
        number cid2 tag2).1 = false := by
  unfold challengeParses at hpa hqpa
  have hRI : (chars "REGISTER" == chars "INVITE") = false := by decide
  have hRIp : (chars "REGISTER" = chars "INVITE") = False := eq_false (by decide)
  have hIR : (chars "INVITE" == chars "REGISTER") = false := by decide
  have hIIp : (chars "INVITE" = chars "INVITE") = True := eq_true rfl
  refine ⟨?_, ?_, ?_, ?_⟩
  · cases hfa : findAuthHeader r1 with
    | none => rw [hfa] at hpa; simp at hpa
    | some ah =>
      rw [hfa] at hpa
      rw [Bool.and_eq_true] at hpa
      obtain ⟨ht1, ht2⟩ := hpa
      by_cases h200 : pyContains r2 (chars "200 OK")
      · simp only [sendRegister, handleAuthentication, mkState, genBranch,
          recvMsg, sendMsg, pushError, hch, hfa, ht1, ht2, h200, hRI, hRIp,
          Bool.not_true, Bool.or_false, Bool.false_or, Bool.and_false,
          if_true, if_false, beq_self_eq_true, ite_true, ite_false]
        rfl
      · rw [Bool.not_eq_true] at h200
        simp only [sendRegister, handleAuthentication, mkState, genBranch,
          recvMsg, sendMsg, pushError, hch, hfa, ht1, ht2, h200, hRI, hRIp,
          Bool.not_true, Bool.or_false, Bool.false_or, Bool.and_false,
          if_true, if_false, beq_self_eq_true, ite_true, ite_false,
          Bool.false_and, Bool.false_eq_true]
        rfl
  · intro hc
    cases hfa : findAuthHeader r1 with
    | none => rw [hfa] at hpa; simp at hpa
    | some ah =>
      rw [hfa] at hpa
      rw [Bool.and_eq_true] at hpa
      obtain ⟨ht1, ht2⟩ := hpa
      simp only [sendRegister, handleAuthentication, mkState, genBranch,
        recvMsg, sendMsg, pushError, hch, hfa, ht1, ht2, hc, hRI, hRIp,
        Bool.not_true, Bool.or_false, Bool.false_or, Bool.and_false,
        if_true, if_false, beq_self_eq_true, ite_true, ite_false,
        Bool.false_and, Bool.false_eq_true]
  · cases hfa : findAuthHeader q1 with
    | none => rw [hfa] at hqpa; simp at hqpa
    | some ah =>
      rw [hfa] at hqpa
      rw [Bool.and_eq_true] at hqpa
      obtain ⟨ht1, ht2⟩ := hqpa
      simp only [makeCall, handleAuthentication, sendAckFn, mkState, genBranch,
        recvMsg, sendMsg, pushError, hq100, hq180, hq401, hfa, ht1, ht2,
        hq200, hq100b, hIR, hIIp, Bool.not_true, Bool.not_false,
        Bool.or_false, Bool.false_or, Bool.and_false, Bool.and_true,
        Bool.true_and, Bool.false_and, if_true, if_false, beq_self_eq_true,
        ite_true, ite_false, Bool.false_eq_true]
      rfl
  · cases hfa : findAuthHeader q1 with
    | none => rw [hfa] at hqpa; simp at hqpa
    | some ah =>
      rw [hfa] at hqpa
      rw [Bool.and_eq_true] at hqpa
      obtain ⟨ht1, ht2⟩ := hqpa
      simp only [makeCall, handleAuthentication, sendAckFn, mkState, genBranch,
        recvMsg, sendMsg, pushError, hq100, hq180, hq401, hfa, ht1, ht2,
        hq200, hq100b, hIR, hIIp, Bool.not_true, Bool.not_false,
        Bool.or_false, Bool.false_or, Bool.and_false, Bool.and_true,
        Bool.true_and, Bool.false_and, if_true, if_false, beq_self_eq_true,
        ite_true, ite_false, Bool.false_eq_true]

/-- Witness for C6: the concrete 401-challenge followed by a second 401
for both flows, with distinct fresh branches. -/
theorem c6_auth_retry_once_witness :
    challengeParses demoChallenge = true ∧
    pyContains demo401 (chars "200 OK") = false ∧
    ((sendRegister (mkState demoCfg
        [chars "z9hG4bK111111", chars "z9hG4bK222222"] 1 false
        [demoChallenge, demo401]) (chars "cid") (chars "tag")).2.sent.map
        (fun m => (m.method, m.hasAuth, m.cseqHdr, m.viaHdr))) =
      [(chars "REGISTER", false, some (cseqValue 1 (chars "REGISTER")),
        some (viaValue demoCfg (chars "z9hG4bK111111"))),
       (chars "REGISTER", true, some (cseqValue 2 (chars "REGISTER")),
        some (viaValue demoCfg (chars "z9hG4bK222222")))] ∧
    (sendRegister (mkState demoCfg
        [chars "z9hG4bK111111", chars "z9hG4bK222222"] 1 false
        [demoChallenge, demo401]) (chars "cid") (chars "tag")).1 = false ∧
    ((makeCall (mkState demoCfg
        [chars "z9hG4bK333333", chars "z9hG4bK444444"] 5 true
        [demoChallenge, demo401]) (chars "5551234") (chars "cid2")
        (chars "tag2")).2.sent.map
        (fun m => (m.method, m.hasAuth, m.cseqHdr, m.viaHdr))) =
      [(chars "INVITE", false, some (cseqValue 1 (chars "INVITE")),
        some (viaValue demoCfg (chars "z9hG4bK333333"))),
       (chars "INVITE", true, some (cseqValue 2 (chars "INVITE")),
        some (viaValue demoCfg (chars "z9hG4bK444444")))] ∧
    (makeCall (mkState demoCfg
        [chars "z9hG4bK333333", chars "z9hG4bK444444"] 5 true
        [demoChallenge, demo401]) (chars "5551234") (chars "cid2")
        (chars "tag2")).1 = false := by
  have h := c6_auth_retry_once demoCfg (chars "z9hG4bK111111")
    (chars "z9hG4bK222222") [] 1 (chars "cid") (chars "tag") demoChallenge
    demo401 [] (chars "z9hG4bK333333") (chars "z9hG4bK444444") [] 5
    (chars "cid2") (chars "tag2") (chars "5551234") demoChallenge demo401 []
    (by decide) (by decide) (by decide) (by decide) (by decide) (by decide)
    (by decide) (by decide)
  exact ⟨by decide, by decide, h.1, h.2.1 (by decide), h.2.2.1, h.2.2.2⟩

/-- C8: an INVITE whose responses arrive as [100, 180, 200] ends
connected (result true) and sends exactly one ACK after the INVITE,
addressed to the Contact URI learned from the 200 (falling back to
sip:domain when none was learned); an INVITE answered [486] ends
failed and sends no ACK. -/
theorem c8_invite_outcomes (cfg : Config) (b1 b2 : List Char)
    (bs : List (List Char)) (c0 : Nat) (cid tag number : List Char)
    (r100 r180 r200 : List Char) (rest : List (List Char))
    (e1 e2 : List Char) (es : List (List Char)) (c1 : Nat)
    (cid2 tag2 number2 r486 : List Char) (rest2 : List (List Char))
    (h1 : pyContains r100 (chars "100 Trying") = true)
    (h2 : pyContains r180 (chars "180 Ringing") = true)
    (h3 : (pyContains r200 (chars "401 Unauthorized") ||
        pyContains r200 (chars "407 Proxy Authentication Required")) = false)
    (h4 : pyContains r200 (chars "200 OK") = true)
    (g1 : pyContains r486 (chars "100 Trying") = false)
    (g2 : pyContains r486 (chars "180 Ringing") = false)
    (g3 : (pyContains r486 (chars "401 Unauthorized") ||
        pyContains r486 (chars "407 Proxy Authentication Required")) = false)
    (g4 : pyContains r486 (chars "200 OK") = false) :
    (makeCall (mkState cfg (b1 :: b2 :: bs) c0 true
        (r100 :: r180 :: r200 :: rest)) number cid tag).1 = true ∧
    ((makeCall (mkState cfg (b1 :: b2 :: bs) c0 true
        (r100 :: r180 :: r200 :: rest)) number cid tag).2.sent.map
        (fun m => (m.method, m.uri))) =
      [(chars "INVITE",
        chars "sip:" ++ formatNumber number ++ chars "@" ++ cfg.domain),
       (chars "ACK",
        match (extractSipHeaders r200
            { remoteTag := none, contactUri := none }).contactUri with
        | some u => u
        | none => chars "sip:" ++ cfg.domain)] ∧
    (makeCall (mkState cfg (e1 :: e2 :: es) c1 true (r486 :: rest2))
        number2 cid2 tag2).1 = false ∧
    ((makeCall (mkState cfg (e1 :: e2 :: es) c1 true (r486 :: rest2))
        number2 cid2 tag2).2.sent.map SentMsg.method) = [chars "INVITE"] := by
  refine ⟨?_, ?_, ?_, ?_⟩
  · simp only [makeCall, sendAckFn, mkState, genBranch, recvMsg, sendMsg,
      pushError, h1, h2, h3, h4, Bool.not_true, Bool.not_false,
      Bool.false_eq_true, if_true, if_false, ite_true, ite_false]
  · simp only [makeCall, sendAckFn, mkState, genBranch, recvMsg, sendMsg,
      pushError, h1, h2, h3, h4, Bool.not_true, Bool.not_false,
      Bool.false_eq_true, if_true, if_false, ite_true, ite_false]
    rfl
  · simp only [makeCall, sendAckFn, mkState, genBranch, recvMsg, sendMsg,
      pushError, g1, g2, g3, g4, Bool.not_true, Bool.not_false,
      Bool.false_eq_true, if_true, if_false, ite_true, ite_false]
  · simp only [makeCall, sendAckFn, mkState, genBranch, recvMsg, sendMsg,
      pushError, g1, g2, g3, g4, Bool.not_true, Bool.not_false,
      Bool.false_eq_true, if_true, if_false, ite_true, ite_false]
    rfl

/-- Witness for C8 at the concrete response sequences [100, 180, 200]
and [486]. -/
theorem c8_invite_outcomes_witness :
    pyContains demo100 (chars "100 Trying") = true ∧
    pyContains demo486 (chars "200 OK") = false ∧
    (makeCall (mkState demoCfg [chars "z9hG4bK111111", chars "z9hG4bK222222"]
        1 true [demo100, demo180, demoOK]) (chars "5551234") (chars "cid")
        (chars "tag")).1 = true ∧
    ((makeCall (mkState demoCfg [chars "z9hG4bK111111", chars "z9hG4bK222222"]
        1 true [demo100, demo180, demoOK]) (chars "5551234") (chars "cid")
        (chars "tag")).2.sent.map (fun m => (m.method, m.uri))) =
      [(chars "INVITE", chars "sip:+15551234@example.com"),
       (chars "ACK", chars "sip:cc@dd")] ∧
    (makeCall (mkState demoCfg [chars "z9hG4bK111111", chars "z9hG4bK222222"]
        1 true [demo486]) (chars "5551234") (chars "cid")
        (chars "tag")).1 = false ∧
    ((makeCall (mkState demoCfg [chars "z9hG4bK111111", chars "z9hG4bK222222"]
        1 true [demo486]) (chars "5551234") (chars "cid")
        (chars "tag")).2.sent.map SentMsg.method) = [chars "INVITE"] := by
  have h := c8_invite_outcomes demoCfg (chars "z9hG4bK111111")
    (chars "z9hG4bK222222") [] 1 (chars "cid") (chars "tag") (chars "5551234")
    demo100 demo180 demoOK [] (chars "z9hG4bK111111") (chars "z9hG4bK222222")
    [] 1 (chars "cid") (chars "tag") (chars "5551234") demo486 []
    (by decide) (by decide) (by decide) (by decide) (by decide) (by decide)
    (by decide) (by decide)
  exact ⟨by decide, by decide, h.1, h.2.1.trans (by decide), h.2.2.1, h.2.2.2⟩

/-- C9 counterexample: during a REGISTER attempt that times out, the
registration state held while the receive blocks is Unregistered — the
code never enters a Registering state, contradicting the claimed
pre-wait value. -/
theorem c9_prewait_not_registering_counterexample :
    (clientRegister freshRegState
        (mkState demoCfg [chars "z9hG4bK111111"] 1 false [])
        (chars "cid") (chars "tag")).1 = RegState.unregistered ∧
    (RegState.unregistered == RegState.registering) = false :=
  ⟨rfl, by decide⟩

/-- C9 amended: with no datagram arriving before the deadline, a
REGISTER or INVITE attempt catches the timeout, records it and returns
failure, having sent its request exactly once with no retransmission.
For REGISTER, the registration state keeps its pre-wait value
(Unregistered for a fresh client, since the code never sets
Registering) while the receive blocks, and register() then explicitly
marks it Failed; the registered flag is unchanged.  For INVITE, the
per-call state map keeps its pre-wait value while the receive blocks
and afterwards: the code never sets Calling, records a call state
(Connected) only on success, and reports the failed attempt by a None
return rather than a Failed entry. -/
theorem c9_timeout_amended (cfg : Config) (bs : List (List Char)) (c0 : Nat)
    (reg : Bool) (pre : RegState) (cid tag : List Char)
    (cfg2 : Config) (bs2 : List (List Char)) (c2 : Nat)
    (calls : List (List Char × CallState)) (target cid2 tag2 : List Char) :
    (clientRegister pre (mkState cfg bs c0 reg []) cid tag).1 = pre ∧
    (clientRegister pre (mkState cfg bs c0 reg []) cid tag).2.1 =
      RegState.failed ∧
    (clientRegister pre (mkState cfg bs c0 reg []) cid tag).2.2.1 = false ∧
    ((clientRegister pre (mkState cfg bs c0 reg []) cid tag).2.2.2.sent.map
      SentMsg.method) = [chars "REGISTER"] ∧
    (clientRegister pre (mkState cfg bs c0 reg []) cid tag).2.2.2.errors =
      [chars "timed out"] ∧
    (clientRegister pre (mkState cfg bs c0 reg []) cid tag).2.2.2.registered =
      reg ∧
    (clientMakeCall calls (mkState cfg2 bs2 c2 true []) target cid2 tag2).1 =
      calls ∧
    (clientMakeCall calls (mkState cfg2 bs2 c2 true []) target cid2 tag2).2.1 =
      calls ∧
    (clientMakeCall calls (mkState cfg2 bs2 c2 true []) target cid2 tag2).2.2.1 =
      none ∧
    ((clientMakeCall calls (mkState cfg2 bs2 c2 true [])
        target cid2 tag2).2.2.2.sent.map SentMsg.method) = [chars "INVITE"] ∧
    (clientMakeCall calls (mkState cfg2 bs2 c2 true []) target cid2 tag2).2.2.2.errors =
      [chars "timed out"] := by
  cases bs <;> cases bs2 <;>
    exact ⟨rfl, rfl, rfl, rfl, rfl, rfl, rfl, rfl, rfl, rfl, rfl⟩

/-! Helper lemmas for the encode/decode round trip (C5). -/

lemma length_dw_le (p : Char → Bool) (l : List Char) :
    (l.dropWhile p).length ≤ l.length :=
  (List.dropWhile_suffix p).sublist.length_le

lemma dropWhile_cons_false {a : Char} {l : List Char} (h : isSpace a = false) :
    (a :: l).dropWhile isSpace = a :: l := by
  simp [List.dropWhile_cons, h]

lemma dropWhile_eq_self_of_length {p : Char → Bool} :
    ∀ {s : List Char}, (s.dropWhile p).length = s.length → s.dropWhile p = s := by
  intro s
  induction s with
  | nil => intro _; rfl
  | cons a s ih =>
    intro h
    rw [List.dropWhile_cons] at h ⊢
    by_cases hp : p a = true
    · rw [if_pos hp] at h
      have := length_dw_le p s
      simp [List.length_cons] at h
      omega
    · rw [if_neg hp]

lemma pyStrip_dropWhile {s : List Char} (h : pyStrip s = s) :
    s.dropWhile isSpace = s := by
  unfold pyStrip at h
  have h1 : (((s.dropWhile isSpace).reverse.dropWhile isSpace).reverse).length = s.length := by
    rw [h]
  have h2 : (((s.dropWhile isSpace).reverse.dropWhile isSpace)).length ≤
      (s.dropWhile isSpace).length := by
    calc ((s.dropWhile isSpace).reverse.dropWhile isSpace).length
        ≤ (s.dropWhile isSpace).reverse.length := length_dw_le _ _
      _ = (s.dropWhile isSpace).length := List.length_reverse _
  have h3 : (s.dropWhile isSpace).length ≤ s.length := length_dw_le _ _
  rw [List.length_reverse] at h1
  exact dropWhile_eq_self_of_length (by omega)

lemma pyStrip_dropWhile_rev {s : List Char} (h : pyStrip s = s) :
    s.reverse.dropWhile isSpace = s.reverse := by
  have hd : s.dropWhile isSpace = s := pyStrip_dropWhile h
  unfold pyStrip at h
  rw [hd] at h
  calc s.reverse.dropWhile isSpace
      = ((s.reverse.dropWhile isSpace).reverse).reverse := (List.reverse_reverse _).symm
    _ = s.reverse := by rw [h]

lemma head_not_space {a : Char} {l : List Char}
    (h : (a :: l).dropWhile isSpace = a :: l) : isSpace a = false := by
  by_cases hp : isSpace a = true
  · rw [List.dropWhile_cons, if_pos hp] at h
    have := length_dw_le isSpace l
    have hlen := congrArg List.length h
    simp [List.length_cons] at hlen
    omega
  · exact Bool.not_eq_true _ |>.mp hp

lemma dw_append_left {x y : List Char} (hx : x.dropWhile isSpace = x)
    (hy : y.dropWhile isSpace = y) :
    (x ++ y).dropWhile isSpace = x ++ y := by
  cases x with
  | nil => simpa using hy
  | cons a x =>
    have ha := head_not_space hx
    simp [List.dropWhile_cons, ha]

lemma not_space_ne_newline {c : Char} (h : isSpace c = false) :
    (c == '\n') = false := by
  cases hb : c == '\n'
  · rfl
  · exfalso
    have : c = '\n' := eq_of_beq hb
    subst this
    simp [isSpace] at h

lemma not_space_ne_space {c : Char} (h : isSpace c = false) :
    (c == ' ') = false := by
  cases hb : c == ' '
  · rfl
  · exfalso
    have : c = ' ' := eq_of_beq hb
    subst this
    simp [isSpace] at h

lemma splitOn_append_char (c : Char) (x rest : List Char)
    (hx : ∀ a ∈ x, (a == c) = false) :
    List.splitOn c (x ++ c :: rest) = x :: List.splitOn c rest := by
  unfold List.splitOn
  refine List.splitOnP_first (· == c) x ?_ c (by simp) rest
  intro a ha hp
  have hp2 : (a == c) = true := hp
  rw [hx a ha] at hp2
  exact absurd hp2 (by simp)

lemma splitOn_lines (ls : List (List Char)) (body : List Char)
    (h : ∀ l ∈ ls, ∀ c ∈ l, (c == '\n') = false) :
    List.splitOn '\n' ((ls.map (fun l => l ++ ['\n'])).flatten ++ body) =
      ls ++ List.splitOn '\n' body := by
  induction ls with
  | nil => simp
  | cons l ls ih =>
    simp only [List.map_cons, List.flatten_cons, List.append_assoc,
      List.cons_append, List.nil_append, List.singleton_append]
    rw [splitOn_append_char '\n' l _ (h l (List.mem_cons_self l ls))]
    rw [ih (fun l2 hl2 => h l2 (List.mem_cons_of_mem l hl2))]
lemma createSipMessage_eq_lines (method uri : List Char)
    (hs : List (List Char × List Char)) (body : List Char) :
    createSipMessage method uri hs body =
      ((encodeLines method uri hs body).map (fun l => l ++ ['\n'])).flatten ++ body := by
  unfold createSipMessage encodeLines
  simp only [show chars " SIP/2.0\r\n" = chars " SIP/2.0\r" ++ ['\n'] from by decide,
    show chars "\r\n" = chars "\r" ++ ['\n'] from by decide]
  simp only [List.map_cons, List.map_append, List.flatten_cons,
    List.flatten_append, List.map_map]
  have hmap : hs.map (fun kv : List Char × List Char =>
      kv.1 ++ chars ": " ++ kv.2 ++ (chars "\r" ++ ['\n'])) =
      hs.map ((fun l => l ++ ['\n']) ∘
        (fun kv : List Char × List Char => kv.1 ++ chars ": " ++ kv.2 ++ chars "\r")) := by
    apply List.map_congr_left
    intro kv _
    simp [List.append_assoc]
  rw [hmap]
  simp [List.append_assoc]
lemma strip_self_of_no_space {s : List Char} (h : ∀ c ∈ s, isSpace c = false) :
    pyStrip s = s := by
  have hd : ∀ t : List Char, (∀ c ∈ t, isSpace c = false) →
      t.dropWhile isSpace = t := by
    intro t ht
    cases t with
    | nil => rfl
    | cons a t => exact dropWhile_cons_false (ht a (List.mem_cons_self a t))
  unfold pyStrip
  rw [hd s h, hd s.reverse (fun c hc => h c (List.mem_reverse.mp hc)),
    List.reverse_reverse]

lemma pyStrip_line_cr {s : List Char} (h1 : s.dropWhile isSpace = s)
    (h2 : s.reverse.dropWhile isSpace = s.reverse) :
    pyStrip (s ++ ['\r']) = s := by
  cases s with
  | nil => rfl
  | cons a s =>
    have ha := head_not_space h1
    unfold pyStrip
    rw [List.cons_append, dropWhile_cons_false ha]
    have hrev : (a :: (s ++ ['\r'])).reverse = '\r' :: ((a :: s).reverse) := by
      simp
    rw [hrev, List.dropWhile_cons, if_pos (by decide), h2, List.reverse_reverse]

lemma pyStrip_colon_space_cr (k : List Char) (hk : pyStrip k = k) :
    pyStrip (k ++ [':', ' ', '\r']) = k ++ [':'] := by
  cases k with
  | nil => rfl
  | cons a k =>
    have ha := head_not_space (pyStrip_dropWhile hk)
    have hrev2 := pyStrip_dropWhile_rev hk
    unfold pyStrip
    rw [List.cons_append, dropWhile_cons_false ha]
    have hrev : (a :: (k ++ [':', ' ', '\r'])).reverse =
        '\r' :: ' ' :: ':' :: ((a :: k).reverse) := by
      simp
    rw [hrev, List.dropWhile_cons, if_pos (by decide), List.dropWhile_cons,
      if_pos (by decide), List.dropWhile_cons, if_neg (by decide)]
    simp

lemma pyStrip_space_cons {v : List Char} (hv : pyStrip v = v) :
    pyStrip (' ' :: v) = v := by
  unfold pyStrip
  rw [List.dropWhile_cons, if_pos (by decide), pyStrip_dropWhile hv,
    pyStrip_dropWhile_rev hv, List.reverse_reverse]

lemma pyStrip_header_line (k v : List Char) (hk : pyStrip k = k)
    (hv : pyStrip v = v) (hvne : v ≠ []) :
    pyStrip ((k ++ chars ": ") ++ v ++ ['\r']) = (k ++ chars ": ") ++ v := by
  apply pyStrip_line_cr
  · cases k with
    | nil =>
      rw [List.nil_append]
      show List.dropWhile isSpace (':' :: (' ' :: v)) = ':' :: (' ' :: v)
      exact dropWhile_cons_false (by decide)
    | cons a k =>
      have ha := head_not_space (pyStrip_dropWhile hk)
      rw [List.cons_append, List.cons_append]
      exact dropWhile_cons_false ha
  · cases hvr : v.reverse with
    | nil => exact absurd (by simpa using congrArg List.reverse hvr) hvne
    | cons c w =>
      have hvd := pyStrip_dropWhile_rev hv
      rw [hvr] at hvd
      have hc := head_not_space hvd
      have : ((k ++ chars ": ") ++ v).reverse = c :: (w ++ (k ++ chars ": ").reverse) := by
        rw [List.reverse_append, hvr]
        simp
      rw [this]
      rw [dropWhile_cons_false hc, ← this]

lemma pyContains_mem {s : List Char} {c : Char} (h : c ∈ s) :
    pyContains s [c] = true := by
  induction s with
  | nil => cases h
  | cons a as ih =>
    rcases List.mem_cons.mp h with heq | hmem
    · subst heq
      simp [pyContains, pyStartsWith]
    · simp [pyContains, ih hmem]

lemma pySplitAux_maxzero (sep : List Char) (f : Nat) (tail : List Char) :
    pySplitAux sep f 0 [] tail = [tail] := by
  cases f with
  | zero => rfl
  | succ f =>
    cases tail with
    | nil => rfl
    | cons t ts => rfl

lemma pySplitAux_colon (tail : List Char) :
    ∀ (k acc : List Char) (fuel : Nat),
      (∀ c ∈ k, (c == ':') = false) → k.length + 2 ≤ fuel →
      pySplitAux (chars ":") fuel 1 acc (k ++ ':' :: tail) =
        [acc.reverse ++ k, tail] := by
  intro k
  induction k with
  | nil =>
    intro acc fuel _ hf
    cases fuel with
    | zero => omega
    | succ f =>
      rw [List.nil_append]
      show (if pyStartsWith (':' :: tail) (chars ":") then
          acc.reverse :: pySplitAux (chars ":") f 0 [] ((':' :: tail).drop (chars ":").length)
        else pySplitAux (chars ":") f 1 (':' :: acc) tail) = [acc.reverse ++ [], tail]
      rw [if_pos (by simp [pyStartsWith, chars])]
      simp [chars, pySplitAux_maxzero]
  | cons c k ih =>
    intro acc fuel hk hf
    cases fuel with
    | zero => omega
    | succ f =>
      rw [List.cons_append]
      show (if pyStartsWith (c :: (k ++ ':' :: tail)) (chars ":") then
          acc.reverse :: pySplitAux (chars ":") f 0 []
            ((c :: (k ++ ':' :: tail)).drop (chars ":").length)
        else pySplitAux (chars ":") f 1 (c :: acc) (k ++ ':' :: tail)) =
        [acc.reverse ++ c :: k, tail]
      have hcc : (c == ':') = false := hk c (List.mem_cons_self c k)
      rw [if_neg (by simp [pyStartsWith, chars, hcc])]
      rw [ih (c :: acc) f (fun a ha => hk a (List.mem_cons_of_mem c ha))
        (by simp [List.length_cons] at hf; omega)]
      simp

lemma pySplitN_colon (k tail : List Char) (hk : ∀ c ∈ k, (c == ':') = false) :
    pySplitN (chars ":") 1 (k ++ ':' :: tail) = [k, tail] := by
  unfold pySplitN
  rw [pySplitAux_colon tail k [] ((k ++ ':' :: tail).length + 1) hk
    (by simp only [List.length_append, List.length_cons]; omega)]
  simp
lemma digit_char_prop : ∀ d : Nat, d < 10 →
    isSpace (Char.ofNat (48 + d)) = false ∧
    (Char.ofNat (48 + d) == ':') = false ∧
    (Char.ofNat (48 + d) == '\n') = false := by decide

lemma natDigitsAux_mem : ∀ (fuel n : Nat), ∀ c ∈ natDigitsAux fuel n,
    ∃ d, d < 10 ∧ c = Char.ofNat (48 + d) := by
  intro fuel
  induction fuel with
  | zero => intro n c hc; cases hc
  | succ fuel ih =>
    intro n c hc
    unfold natDigitsAux at hc
    by_cases hn : n < 10
    · rw [if_pos hn] at hc
      have heq := List.mem_singleton.mp hc
      exact ⟨n, hn, heq⟩
    · rw [if_neg hn] at hc
      rcases List.mem_append.mp hc with h | h
      · exact ih (n / 10) c h
      · have heq := List.mem_singleton.mp h
        exact ⟨n % 10, Nat.mod_lt _ (by omega), heq⟩

lemma natToChars_mem {n : Nat} {c : Char} (hc : c ∈ natToChars n) :
    ∃ d, d < 10 ∧ c = Char.ofNat (48 + d) :=
  natDigitsAux_mem (n + 1) n c hc

lemma natToChars_no_space (n : Nat) : ∀ c ∈ natToChars n, isSpace c = false := by
  intro c hc
  obtain ⟨d, hd, heq⟩ := natToChars_mem hc
  subst heq
  exact (digit_char_prop d hd).1

lemma natToChars_no_colon (n : Nat) : ∀ c ∈ natToChars n, (c == ':') = false := by
  intro c hc
  obtain ⟨d, hd, heq⟩ := natToChars_mem hc
  subst heq
  exact (digit_char_prop d hd).2.1

lemma natToChars_strip (n : Nat) : pyStrip (natToChars n) = natToChars n :=
  strip_self_of_no_space (natToChars_no_space n)

lemma natToChars_ne_nil (n : Nat) : natToChars n ≠ [] := by
  unfold natToChars natDigitsAux
  by_cases hn : n < 10 <;> simp [hn]

lemma dictInsert_append (k v : List Char) (d : List (List Char × List Char))
    (h : k ∉ d.map Prod.fst) : dictInsert k v d = d ++ [(k, v)] := by
  induction d with
  | nil => rfl
  | cons kv rest ih =>
    obtain ⟨k0, v0⟩ := kv
    have hne : k0 ≠ k := by
      intro heq
      exact h (by simp [heq])
    unfold dictInsert
    rw [if_neg (by simpa using hne)]
    rw [ih (fun hm => h (by simp at hm ⊢; exact Or.inr hm))]
    rfl

lemma foldl_dictInsert (hs : List (List Char × List Char)) :
    ∀ d, (hs.map Prod.fst).Nodup →
      (∀ key ∈ hs.map Prod.fst, key ∉ d.map Prod.fst) →
      hs.foldl (fun d kv => dictInsert kv.1 kv.2 d) d = d ++ hs := by
  induction hs with
  | nil => intro d _ _; simp
  | cons kv t ih =>
    intro d hnd hdis
    obtain ⟨k, v⟩ := kv
    simp only [List.foldl_cons]
    have hnd2 : (k :: t.map Prod.fst).Nodup := by simpa using hnd
    have hknot : k ∉ t.map Prod.fst := (List.nodup_cons.mp hnd2).1
    have hndt : (t.map Prod.fst).Nodup := (List.nodup_cons.mp hnd2).2
    rw [dictInsert_append k v d (hdis k (by simp))]
    rw [ih (d ++ [(k, v)]) hndt ?_]
    · simp
    · intro key hkey
      have hk1 : key ∉ d.map Prod.fst :=
        hdis key (by simp at hkey ⊢; exact Or.inr hkey)
      have hk2 : key ≠ k := by
        intro heq
        rw [heq] at hkey
        exact hknot hkey
      simp at hk1 ⊢
      exact ⟨hk1, hk2⟩
lemma isEmpty_false_of_ne {s : List Char} (h : s ≠ []) : s.isEmpty = false := by
  cases s with
  | nil => exact absurd rfl h
  | cons a t => rfl

lemma parseHeaderLines_step (k v : List Char) (restLines : List (List Char))
    (d : List (List Char × List Char)) (i : Nat)
    (hkc : ∀ c ∈ k, (c == ':') = false)
    (hks : pyStrip k = k) (hvs : pyStrip v = v) :
    parseHeaderLines ((k ++ chars ": " ++ v ++ chars "\r") :: restLines) d i =
      parseHeaderLines restLines (dictInsert k v d) (i + 1) := by
  by_cases hv : v = []
  · subst hv
    have hline : k ++ chars ": " ++ [] ++ chars "\r" = k ++ [':', ' ', '\r'] := by
      rw [List.append_nil, List.append_assoc]
      rfl
    rw [hline]
    simp only [parseHeaderLines]
    rw [pyStrip_colon_space_cr k hks]
    have hne : (k ++ [':']).isEmpty = false := isEmpty_false_of_ne (by simp)
    rw [hne]
    have hcont : pyContains (k ++ [':']) (chars ":") = true :=
      pyContains_mem (by simp)
    rw [hcont]
    have hsplit : pySplitN (chars ":") 1 (k ++ [':']) = [k, []] :=
      pySplitN_colon k [] hkc
    rw [hsplit]
    simp only [Bool.false_eq_true, if_false, if_true, ite_true, ite_false]
    rw [hks]
    rfl
  · have hline : k ++ chars ": " ++ v ++ chars "\r" =
        (k ++ (':' :: ' ' :: v)) ++ ['\r'] := by
      rw [List.append_assoc k (chars ": ") v]
      rfl
    rw [hline]
    simp only [parseHeaderLines]
    have hstrip : pyStrip ((k ++ (':' :: ' ' :: v)) ++ ['\r']) =
        k ++ (':' :: ' ' :: v) := by
      have h0 : (k ++ chars ": ") ++ v = k ++ (':' :: ' ' :: v) := by
        rw [List.append_assoc]
        rfl
      have := pyStrip_header_line k v hks hvs hv
      rw [h0] at this
      exact this
    rw [hstrip]
    have hne : (k ++ (':' :: ' ' :: v)).isEmpty = false :=
      isEmpty_false_of_ne (by simp)
    rw [hne]
    have hcont : pyContains (k ++ (':' :: ' ' :: v)) (chars ":") = true :=
      pyContains_mem (by simp)
    rw [hcont]
    have hsplit : pySplitN (chars ":") 1 (k ++ (':' :: ' ' :: v)) = [k, ' ' :: v] :=
      pySplitN_colon k (' ' :: v) hkc
    rw [hsplit]
    simp only [Bool.false_eq_true, if_false, if_true, ite_true, ite_false]
    rw [hks, pyStrip_space_cons hvs]

lemma parseHeaderLines_headers (hs : List (List Char × List Char)) :
    ∀ (tailLines : List (List Char)) (d : List (List Char × List Char)) (i : Nat),
      (∀ kv ∈ hs, (∀ c ∈ kv.1, (c == ':') = false) ∧
        pyStrip kv.1 = kv.1 ∧ pyStrip kv.2 = kv.2) →
      parseHeaderLines
          ((hs.map (fun kv => kv.1 ++ chars ": " ++ kv.2 ++ chars "\r")) ++ tailLines)
          d i =
        parseHeaderLines tailLines
          (hs.foldl (fun d kv => dictInsert kv.1 kv.2 d) d) (i + hs.length) := by
  induction hs with
  | nil => intro tailLines d i _; simp
  | cons kv t ih =>
    intro tailLines d i hok
    obtain ⟨k, v⟩ := kv
    simp only [List.map_cons, List.cons_append]
    rw [parseHeaderLines_step k v _ d i (hok (k, v) (by simp)).1
      (hok (k, v) (by simp)).2.1 (hok (k, v) (by simp)).2.2]
    rw [ih tailLines (dictInsert k v d) (i + 1)
      (fun kv2 h2 => hok kv2 (List.mem_cons_of_mem _ h2))]
    simp only [List.foldl_cons, List.length_cons]
    congr 1
    omega

lemma parseHeaderLines_blank (restLines : List (List Char))
    (d : List (List Char × List Char)) (i : Nat) :
    parseHeaderLines (chars "\r" :: restLines) d i = (d, some (i + 1)) := by
  simp only [parseHeaderLines]
  rw [show pyStrip (chars "\r") = [] from by decide]
  rfl
lemma reqline_strip (method uri : List Char) (hm1 : method ≠ [])
    (hm2 : ∀ c ∈ method, isSpace c = false) :
    pyStrip (method ++ chars " " ++ uri ++ chars " SIP/2.0\r") =
      method ++ chars " " ++ uri ++ chars " SIP/2.0" := by
  have hconv : method ++ chars " " ++ uri ++ chars " SIP/2.0\r" =
      (method ++ chars " " ++ uri ++ chars " SIP/2.0") ++ ['\r'] := by
    conv_rhs => rw [List.append_assoc]
    rfl
  rw [hconv]
  apply pyStrip_line_cr
  · cases method with
    | nil => exact absurd rfl hm1
    | cons a m =>
      simp only [List.cons_append]
      exact dropWhile_cons_false (hm2 a (List.mem_cons_self a m))
  · rw [List.reverse_append]
    rw [show (chars " SIP/2.0").reverse = '0' :: ['.', '2', '/', 'P', 'I', 'S', ' ']
      from by decide]
    rw [List.cons_append]
    exact dropWhile_cons_false (by decide)

lemma reqline_split (method uri : List Char)
    (hm2 : ∀ c ∈ method, isSpace c = false) (hu : ∀ c ∈ uri, isSpace c = false) :
    List.splitOn ' ' (method ++ chars " " ++ uri ++ chars " SIP/2.0") =
      [method, uri, chars "SIP/2.0"] := by
  have hconv : method ++ chars " " ++ uri ++ chars " SIP/2.0" =
      method ++ (' ' :: (uri ++ (' ' :: chars "SIP/2.0"))) := by
    simp only [List.append_assoc]
    rfl
  rw [hconv]
  rw [splitOn_append_char ' ' method _ (fun a ha => not_space_ne_space (hm2 a ha))]
  rw [splitOn_append_char ' ' uri _ (fun a ha => not_space_ne_space (hu a ha))]
  rw [show List.splitOn ' ' (chars "SIP/2.0") = [chars "SIP/2.0"] from by decide]
lemma no_nl_append {x y : List Char} (hx : ∀ c ∈ x, (c == '\n') = false)
    (hy : ∀ c ∈ y, (c == '\n') = false) :
    ∀ c ∈ x ++ y, (c == '\n') = false := by
  intro c hc
  rcases List.mem_append.mp hc with h | h
  · exact hx c h
  · exact hy c h

lemma no_nl_concrete {s : List Char} (h : s.all (fun c => !(c == '\n')) = true) :
    ∀ c ∈ s, (c == '\n') = false := by
  intro c hc
  have := List.all_eq_true.mp h c hc
  simpa using this

lemma natToChars_no_newline (n : Nat) :
    ∀ c ∈ natToChars n, (c == '\n') = false := by
  intro c hc
  obtain ⟨d, hd, heq⟩ := natToChars_mem hc
  subst heq
  exact (digit_char_prop d hd).2.2

lemma parseSIP_eq (raw : List Char) :
    parseSIP raw =
      { parseFirstLine (pyStrip ((List.splitOn '\n' raw).headD [])) with
        headers := (parseHeaderLines ((List.splitOn '\n' raw).drop 1) [] 1).1,
        body :=
          if ((parseHeaderLines ((List.splitOn '\n' raw).drop 1) [] 1).2.getD 1) <
              (List.splitOn '\n' raw).length then
            List.intercalate (chars "\n")
              ((List.splitOn '\n' raw).drop
                ((parseHeaderLines ((List.splitOn '\n' raw).drop 1) [] 1).2.getD 1))
          else [] } := rfl

/-- C5 amended: for a well-formed message — nonempty whitespace-free
method not beginning with the version token, whitespace-free URI,
header keys free of colons and newlines, keys and values
whitespace-trimmed and newline-free, keys distinct and not containing
Content-Length — decoding the encoded form reproduces the method, URI,
status 0 and body exactly, and reproduces the headers with the single
computed Content-Length entry appended (the encoder always adds it, so
the original header map alone is never reproduced verbatim). -/
theorem c5_roundtrip_amended (method uri body : List Char)
    (hs : List (List Char × List Char))
    (hm1 : method ≠ [])
    (hm2 : ∀ c ∈ method, isSpace c = false)
    (hu : ∀ c ∈ uri, isSpace c = false)
    (hsip : pyStartsWith (method ++ chars " " ++ uri ++ chars " SIP/2.0")
      (chars "SIP/2.0") = false)
    (hok : ∀ kv ∈ hs, (∀ c ∈ kv.1, (c == ':') = false ∧ (c == '\n') = false) ∧
      pyStrip kv.1 = kv.1 ∧ (∀ c ∈ kv.2, (c == '\n') = false) ∧
      pyStrip kv.2 = kv.2)
    (hnd : (hs.map Prod.fst).Nodup)
    (hcl : chars "Content-Length" ∉ hs.map Prod.fst) :
    parseSIP (createSipMessage method uri hs body) =
      { headers := hs ++ [(chars "Content-Length", natToChars body.length)],
        body := body, method := method, uri := uri,
        version := chars "SIP/2.0", statusCode := 0, reasonPhrase := [] } := by
  have hnl : ∀ l ∈ encodeLines method uri hs body, ∀ c ∈ l, (c == '\n') = false := by
    intro l hl
    unfold encodeLines at hl
    rcases List.mem_cons.mp hl with heq | hl2
    · subst heq
      exact no_nl_append (no_nl_append (no_nl_append
        (fun c hc => not_space_ne_newline (hm2 c hc)) (no_nl_concrete (by decide)))
        (fun c hc => not_space_ne_newline (hu c hc))) (no_nl_concrete (by decide))
    · rcases List.mem_append.mp hl2 with hmap | htail
      · obtain ⟨kv, hkv, heq⟩ := List.mem_map.mp hmap
        subst heq
        exact no_nl_append (no_nl_append (no_nl_append
          (fun c hc => ((hok kv hkv).1 c hc).2) (no_nl_concrete (by decide)))
          (hok kv hkv).2.2.1) (no_nl_concrete (by decide))
      · rcases List.mem_cons.mp htail with heq | htail2
        · subst heq
          exact no_nl_append (no_nl_append (no_nl_concrete (by decide))
            (natToChars_no_newline body.length)) (no_nl_concrete (by decide))
        · have heq := List.mem_singleton.mp htail2
          subst heq
          exact no_nl_concrete (by decide)
  have hlines : List.splitOn '\n' (createSipMessage method uri hs body) =
      encodeLines method uri hs body ++ List.splitOn '\n' body := by
    rw [createSipMessage_eq_lines]
    exact splitOn_lines _ body hnl
  have hbody_ne : List.splitOn '\n' body ≠ [] :=
    List.splitOnP_ne_nil _ body
  have hfl : parseFirstLine (method ++ chars " " ++ uri ++ chars " SIP/2.0") =
      { SIPMsg.empty with
        method := method, uri := uri, version := chars "SIP/2.0" } := by
    unfold parseFirstLine
    rw [hsip]
    rw [if_neg (by simp)]
    rw [reqline_split method uri hm2 hu]
  have hhdr : parseHeaderLines
      ((hs.map (fun kv => kv.1 ++ chars ": " ++ kv.2 ++ chars "\r")) ++
        ((chars "Content-Length: " ++ natToChars body.length ++ chars "\r") ::
          chars "\r" :: List.splitOn '\n' body)) [] 1 =
      (hs ++ [(chars "Content-Length", natToChars body.length)],
        some (1 + hs.length + 1 + 1)) := by
    rw [parseHeaderLines_headers hs _ [] 1
      (fun kv hkv => ⟨fun c hc => ((hok kv hkv).1 c hc).1,
        (hok kv hkv).2.1, (hok kv hkv).2.2.2⟩)]
    rw [foldl_dictInsert hs [] hnd (by simp)]
    rw [show (chars "Content-Length: " : List Char) =
      chars "Content-Length" ++ chars ": " from by decide]
    rw [parseHeaderLines_step (chars "Content-Length") (natToChars body.length)
      _ _ _ (by decide) (by decide) (natToChars_strip _)]
    rw [dictInsert_append _ _ _ (by simpa using hcl)]
    rw [parseHeaderLines_blank]
    simp
  rw [parseSIP_eq, hlines]
  have hhead : ((encodeLines method uri hs body) ++ List.splitOn '\n' body).headD [] =
      method ++ chars " " ++ uri ++ chars " SIP/2.0\r" := rfl
  have hd1 : ((encodeLines method uri hs body) ++ List.splitOn '\n' body).drop 1 =
      (hs.map (fun kv => kv.1 ++ chars ": " ++ kv.2 ++ chars "\r")) ++
        ((chars "Content-Length: " ++ natToChars body.length ++ chars "\r") ::
          chars "\r" :: List.splitOn '\n' body) := by
    show (hs.map (fun kv => kv.1 ++ chars ": " ++ kv.2 ++ chars "\r") ++
      [chars "Content-Length: " ++ natToChars body.length ++ chars "\r", chars "\r"]) ++
        List.splitOn '\n' body = _
    rw [List.append_assoc]
    rfl
  rw [hhead, hd1, hhdr, reqline_strip method uri hm1 hm2, hfl]
  have hlen : ((encodeLines method uri hs body) ++ List.splitOn '\n' body).length =
      hs.length + 3 + (List.splitOn '\n' body).length := by
    simp [encodeLines]
    omega
  have hpos : 0 < (List.splitOn '\n' body).length := List.length_pos.mpr hbody_ne
  dsimp only [Option.getD]
  rw [hlen]
  rw [if_pos (by omega)]
  have henclen : (encodeLines method uri hs body).length = 1 + hs.length + 1 + 1 := by
    simp only [encodeLines, List.length_cons, List.length_append, List.length_map,
      List.length_nil]
    omega
  have hdropN : ((encodeLines method uri hs body) ++ List.splitOn '\n' body).drop
      (1 + hs.length + 1 + 1) = List.splitOn '\n' body := by
    rw [← henclen]
    exact List.drop_left _ _
  rw [hdropN]
  have hinter : List.intercalate (chars "\n") (List.splitOn '\n' body) = body := by
    rw [show (chars "\n" : List Char) = ['\n'] from rfl]
    exact List.intercalate_splitOn body '\n'
  rw [hinter]
  rfl

/-- C5 counterexample: at the simple message with method INVITE, URI
sip:x, empty header map and empty body, the decoded headers contain the
computed Content-Length entry, so they differ from the original empty
header map — decode(encode m) does not reproduce the headers unchanged. -/
theorem c5_roundtrip_counterexample :
    (parseSIP (createSipMessage (chars "INVITE") (chars "sip:x") [] [])).headers =
      [(chars "Content-Length", chars "0")] ∧
    (([] : List (List Char × List Char)) ==
      [(chars "Content-Length", chars "0")]) = false :=
  ⟨by decide, by decide⟩

/-- Witness for C5 at a concrete well-formed message with two headers
and a body containing an embedded newline. -/
theorem c5_roundtrip_amended_witness :
    pyStartsWith (chars "INVITE" ++ chars " " ++ chars "sip:bob@example.com"
      ++ chars " SIP/2.0") (chars "SIP/2.0") = false ∧
    chars "Content-Length" ∉
      ([(chars "Via", chars "SIP/2.0/UDP h:5060"), (chars "To", chars "<sip:b@e>")].map
        Prod.fst) ∧
    parseSIP (createSipMessage (chars "INVITE") (chars "sip:bob@example.com")
        [(chars "Via", chars "SIP/2.0/UDP h:5060"), (chars "To", chars "<sip:b@e>")]
        (chars "v=0\nab")) =
      { headers := [(chars "Via", chars "SIP/2.0/UDP h:5060"),
          (chars "To", chars "<sip:b@e>")] ++
          [(chars "Content-Length", natToChars (chars "v=0\nab").length)],
        body := chars "v=0\nab", method := chars "INVITE",
        uri := chars "sip:bob@example.com", version := chars "SIP/2.0",
        statusCode := 0, reasonPhrase := [] } :=
  ⟨by decide, by decide,
    c5_roundtrip_amended (chars "INVITE") (chars "sip:bob@example.com")
      (chars "v=0\nab")
      [(chars "Via", chars "SIP/2.0/UDP h:5060"), (chars "To", chars "<sip:b@e>")]
      (by decide) (by decide) (by decide) (by decide) (by decide) (by decide)
      (by decide)⟩

end USIP
